import Mathlib

/-!
Verification of the `scalable_rectpack` core (`src/scalable_rectpack/_core.py`).

The source solves a 2D bin-packing problem with shrinkable rectangular items
using the OR-Tools CP-SAT solver in two phases: Phase 1 minimises the number
of boxes, Phase 2 minimises total shrink (globally or per box).

Shallow embedding conventions:
* The external CP-SAT solver is modelled as an oracle supplying a termination
  status together with concrete values for every declared decision variable
  (`SolveOracle`, `Phase1Oracle`).  Theorems that depend on the solver's
  contract take as hypotheses that the returned values satisfy the constraint
  model; the constraint model built by `_add_item_variables`,
  `_add_non_overlap_constraints` and `_add_objective_min_boxes` is embedded as
  the satisfaction predicates `itemVarsSat`, `pairSat`, `ItemsSat`,
  `NonOverlapSat`, `ModelSat` and `Phase1ObjectiveSat`.
* Python ints are embedded as `Int`.  The wall-clock solve-time fields
  (Python floats measured from the real clock) are omitted from the result
  records; no claim concerns them.
* Human-readable messages built with f-string interpolation of numbers and
  solver statuses are embedded as fixed strings (their content is irrelevant
  to every claim).
-/

namespace ScalableRectpack

/-- CP-SAT termination statuses (`ortools.sat.cp_model_pb2.CpSolverStatus`).
The five proto values, in proto order. -/
inductive CpSolverStatus where
  | UNKNOWN
  | MODEL_INVALID
  | FEASIBLE
  | INFEASIBLE
  | OPTIMAL
deriving DecidableEq

/-- `PackingOutcome` enum from `_core.py` lines 15-22. -/
inductive PackingOutcome where
  | OPTIMAL
  | FEASIBLE
  | NO_SOLUTION_INFEASIBLE
  | NO_SOLUTION_TIMEOUT
  | NO_SOLUTION_UNKNOWN
deriving DecidableEq

/-- `Item` dataclass, lines 104-127. -/
structure Item where
  id : Int
  width : Int
  height : Int
  width_min : Int
  height_min : Int
deriving DecidableEq

instance : Inhabited Item := ⟨⟨0, 0, 0, 0, 0⟩⟩

/-- `PackedItem` dataclass, lines 130-156. -/
structure PackedItem where
  id : Int
  x : Int
  y : Int
  width : Int
  height : Int
  box_id : Int
deriving DecidableEq

/-- `Box` dataclass, lines 159-176. -/
structure Box where
  id : Int
  width : Int
  height : Int
deriving DecidableEq

/-- `PerBoxPackingResult` dataclass, lines 25-57 (solve_time omitted, see
module comment). -/
structure PerBoxPackingResult where
  box_id : Option Int
  packed_items : Option (List PackedItem)
  total_shrink : Option Int
  status : CpSolverStatus
  outcome : PackingOutcome
  message : Option String := none
deriving DecidableEq

instance : Inhabited PerBoxPackingResult :=
  ⟨⟨none, none, none, CpSolverStatus.UNKNOWN, PackingOutcome.NO_SOLUTION_UNKNOWN, none⟩⟩

/-- `PackingResult` dataclass, lines 60-98 (solve_time_phase1 omitted). -/
structure PackingResult where
  success : Bool
  message : String
  num_boxes_used : Option Int
  status_phase1 : CpSolverStatus
  outcome : PackingOutcome
  box_width : Int
  box_height : Int
  packing_results : List PerBoxPackingResult
deriving DecidableEq

instance : Inhabited PackingResult :=
  ⟨⟨false, "", none, CpSolverStatus.UNKNOWN, PackingOutcome.NO_SOLUTION_UNKNOWN, 0, 0, []⟩⟩

/-- Concrete values the solver returns for one item's decision variables
(`box_id`, `x`, `y`, `w`, `h` created in `_add_item_variables`, lines 187-214;
`shrink` is only created when `equal_shrink` is true and is ignored
otherwise). -/
structure ItemVals where
  box_id : Int
  x : Int
  y : Int
  w : Int
  h : Int
  shrink : Int
deriving DecidableEq

instance : Inhabited ItemVals := ⟨⟨0, 0, 0, 0, 0, 0⟩⟩

/-- One CP-SAT invocation of the external solver, modelled as an oracle:
its termination status plus a value for every per-item variable. -/
structure SolveOracle where
  status : CpSolverStatus
  vals : List ItemVals

/-- The Phase-1 CP-SAT invocation (`solver1.Solve(model1)`, line 469):
status, per-item variable values, and the value of `max_box_id`. -/
structure Phase1Oracle where
  status : CpSolverStatus
  vals : List ItemVals
  maxBoxIdVal : Int

/-- `status in (cp_model.OPTIMAL, cp_model.FEASIBLE)` (lines 300, 472). -/
def statusFeasible (s : CpSolverStatus) : Bool :=
  s == CpSolverStatus.OPTIMAL || s == CpSolverStatus.FEASIBLE

/-- The conditional-expression chain classifying a Phase-2 solver status into a
`PackingOutcome` (duplicated verbatim in the source at lines 516-526 and
599-609). -/
def classifyStatus (s : CpSolverStatus) : PackingOutcome :=
  if s = CpSolverStatus.OPTIMAL then PackingOutcome.OPTIMAL
  else if s = CpSolverStatus.FEASIBLE then PackingOutcome.FEASIBLE
  else if s = CpSolverStatus.INFEASIBLE then PackingOutcome.NO_SOLUTION_INFEASIBLE
  else if s = CpSolverStatus.UNKNOWN then PackingOutcome.NO_SOLUTION_TIMEOUT
  else PackingOutcome.NO_SOLUTION_UNKNOWN

/-- The outcome computed in the Phase-1 failure branch, lines 474-478:
`NO_SOLUTION_INFEASIBLE if status1 == cp_model.INFEASIBLE else
NO_SOLUTION_TIMEOUT`. -/
def phase1FailureOutcome (s : CpSolverStatus) : PackingOutcome :=
  if s = CpSolverStatus.INFEASIBLE then PackingOutcome.NO_SOLUTION_INFEASIBLE
  else PackingOutcome.NO_SOLUTION_TIMEOUT

/-- Constraints `_add_item_variables` (lines 187-214) places on one item's
variables: variable bounds, the optional equal-shrink coupling, and the
in-box boundary constraints. -/
@[reducible] def itemVarsSat (item : Item) (max_boxes : Int) (box : Box) (equal_shrink : Bool)
    (v : ItemVals) : Prop :=
  0 ≤ v.box_id ∧ v.box_id ≤ max_boxes - 1 ∧
  0 ≤ v.x ∧ v.x ≤ box.width ∧
  0 ≤ v.y ∧ v.y ≤ box.height ∧
  item.width_min ≤ v.w ∧ v.w ≤ item.width ∧
  item.height_min ≤ v.h ∧ v.h ≤ item.height ∧
  (equal_shrink = true →
    0 ≤ v.shrink ∧
    v.shrink ≤ min (item.width - item.width_min) (item.height - item.height_min) ∧
    v.w = item.width - v.shrink ∧ v.h = item.height - v.shrink) ∧
  v.x + v.w ≤ box.width ∧ v.y + v.h ≤ box.height

/-- The five indicator booleans one pair of items gets in
`_add_non_overlap_constraints` (lines 237-241). -/
structure PairBools where
  b_left : Bool
  b_right : Bool
  b_above : Bool
  b_below : Bool
  b_diff_box : Bool
deriving DecidableEq

/-- The constraints lines 243-251 place on one unordered pair `(i, j)`:
each indicator enforces its guarded linear constraint, and at least one
indicator holds (`AddBoolOr`). -/
@[reducible] def pairSat (vi vj : ItemVals) (b : PairBools) : Prop :=
  (b.b_diff_box = true → vi.box_id ≠ vj.box_id) ∧
  (b.b_diff_box = false → vi.box_id = vj.box_id) ∧
  (b.b_left = true → vi.x + vi.w ≤ vj.x) ∧
  (b.b_right = true → vj.x + vj.w ≤ vi.x) ∧
  (b.b_below = true → vi.y + vi.h ≤ vj.y) ∧
  (b.b_above = true → vj.y + vj.h ≤ vi.y) ∧
  (b.b_left = true ∨ b.b_right = true ∨ b.b_above = true ∨ b.b_below = true ∨
    b.b_diff_box = true)

/-- Satisfaction of every per-item constraint of the model, for a list of
items and a same-length list of variable values. -/
@[reducible] def ItemsSat (items : List Item) (box : Box) (max_boxes : Int) (equal_shrink : Bool)
    (vals : List ItemVals) : Prop :=
  vals.length = items.length ∧
  ∀ k, k < vals.length →
    itemVarsSat (items.getD k default) max_boxes box equal_shrink (vals.getD k default)

/-- Satisfaction of every pairwise non-overlap constraint
(`_add_non_overlap_constraints` iterates `i < j`), with `bools i j` the
values of the pair's five indicator variables. -/
@[reducible] def NonOverlapSat (vals : List ItemVals) (bools : Nat → Nat → PairBools) : Prop :=
  ∀ i, i < vals.length → ∀ j, j < vals.length → i < j →
    pairSat (vals.getD i default) (vals.getD j default) (bools i j)

/-- Satisfaction of the full constraint model built by `_solve_model`
lines 279-281 (and by the Phase-1 model, lines 462-464) before any
objective is attached. -/
@[reducible] def ModelSat (items : List Item) (box : Box) (max_boxes : Int) (equal_shrink : Bool)
    (vals : List ItemVals) (bools : Nat → Nat → PairBools) : Prop :=
  ItemsSat items box max_boxes equal_shrink vals ∧ NonOverlapSat vals bools

set_option synthInstance.maxSize 3000 in
instance (vals : List ItemVals) (bools : Nat → Nat → PairBools) :
    Decidable (NonOverlapSat vals bools) :=
  inferInstance

set_option synthInstance.maxSize 3000 in
instance (items : List Item) (box : Box) (max_boxes : Int) (equal_shrink : Bool)
    (vals : List ItemVals) : Decidable (ItemsSat items box max_boxes equal_shrink vals) :=
  inferInstance

instance (items : List Item) (box : Box) (max_boxes : Int) (equal_shrink : Bool)
    (vals : List ItemVals) (bools : Nat → Nat → PairBools) :
    Decidable (ModelSat items box max_boxes equal_shrink vals bools) :=
  instDecidableAnd

/-- Constraints added by `_add_objective_min_boxes` (lines 254-260) for
`n = len(item_vars)` items: `max_box_id = NewIntVar(0, n)` and
`box_id <= max_box_id` for every item.  (`max_box_id` is then the
minimisation objective.) -/
@[reducible] def Phase1ObjectiveSat (n : Nat) (vals : List ItemVals) (m : Int) : Prop :=
  0 ≤ m ∧ m ≤ (n : Int) ∧ ∀ v ∈ vals, v.box_id ≤ m

/-- The objective value minimised by Phase 1 (`model.Minimize(max_box_id)`,
line 259). -/
def phase1Objective (m : Int) : Int := m

/-- The `PackedItem` list built from the solver values, lines 301-311. -/
def packedOf (items : List Item) (vals : List ItemVals) : List PackedItem :=
  (items.zip vals).map fun p =>
    { id := p.1.id, x := p.2.x, y := p.2.y, width := p.2.w, height := p.2.h,
      box_id := p.2.box_id }

/-- `total_shrink_value`, lines 313-316. -/
def totalShrinkValue (items : List Item) (vals : List ItemVals) : Int :=
  ((items.zip vals).map fun p => (p.1.width - p.2.w) + (p.1.height - p.2.h)).sum

/-- `_solve_model`, lines 271-318: build the model (embodied by the `ModelSat`
hypotheses of the theorems below), invoke the solver (the oracle), and on a
feasible status extract the packed items and the total shrink.  Returns
`(packed_items, status, total_shrink_value)`; the wall-clock solve time is
omitted.  The `box_template` / `max_boxes` / `equal_shrink` arguments shape
the constraint model and the conditional shrink objective, which do not
affect the result-extraction logic embedded here. -/
def solveModel (items : List Item) (box_template : Box) (max_boxes : Int)
    (equal_shrink : Bool) (oracle : SolveOracle) :
    Option (List PackedItem) × CpSolverStatus × Option Int :=
  if statusFeasible oracle.status then
    (some (packedOf items oracle.vals), oracle.status,
      some (totalShrinkValue items oracle.vals))
  else
    (none, oracle.status, none)

/-- The checks of the per-item validation loop body, lines 432-456.
Messages elide the interpolated item ids. -/
def validateItem (box_width box_height : Int) (item : Item) : Option String :=
  if item.width ≤ 0 then some "Item: 'width' must be a positive integer." else
  if item.height ≤ 0 then some "Item: 'height' must be a positive integer." else
  if item.width_min ≤ 0 then some "Item: 'width_min' must be a positive integer." else
  if item.height_min ≤ 0 then some "Item: 'height_min' must be a positive integer." else
  if item.width < item.width_min then
    some "Item: 'width_min' cannot be greater than 'width'." else
  if item.height < item.height_min then
    some "Item: 'height_min' cannot be greater than 'height'." else
  if box_width < item.width_min ∨ box_height < item.height_min then
    some "Item: minimum dimensions exceed box dimensions." else
  none

/-- Input validation, lines 419-456.  The `isinstance` type checks are
subsumed by typing; the per-item loop raises on the first offending item,
embodied by `findSome?`. -/
def validateInputs (items : List Item) (box_width box_height time_limit : Int) :
    Option String :=
  if items.isEmpty then some "Input 'items' list cannot be empty." else
  if box_width ≤ 0 then some "'box_width' must be a positive integer." else
  if box_height ≤ 0 then some "'box_height' must be a positive integer." else
  if time_limit ≤ 0 then some "'time_limit' must be a positive integer." else
  items.findSome? (validateItem box_width box_height)

/-- Step 2 (lines 493-497): partition the items into `min_boxes` buckets by
their Phase-1 `box_id` value, bucket `b` holding — in input order — the items
whose assigned box id is `b`. -/
def boxToItems (items : List Item) (vals : List ItemVals) (min_boxes : Nat) :
    List (List Item) :=
  (List.range min_boxes).map fun (b : Nat) =>
    ((items.zip vals).filter fun p => p.2.box_id == (b : Int)).map Prod.fst

/-- The early-return `PackingResult` of the Phase-1 failure branch,
lines 479-489. -/
def phase1FailureResult (box_width box_height : Int) (status1 : CpSolverStatus) :
    PackingResult :=
  { success := false,
    message := "Phase 1 (Box Minimization) failed to find a feasible solution.",
    num_boxes_used := none,
    status_phase1 := status1,
    outcome := phase1FailureOutcome status1,
    box_width := box_width,
    box_height := box_height,
    packing_results := [] }

/-- One iteration of the per-box Phase-2 loop, lines 506-558: solve the box's
model (capacity 1), classify the status, and build the box's
`PerBoxPackingResult`; on success every packed item's `box_id` is overwritten
with the box's id (line 546). -/
def mkPerBoxEntry (box_items : List Item) (b : Nat) (box_width box_height : Int)
    (equal_shrink : Bool) (oracle : SolveOracle) : PerBoxPackingResult :=
  match solveModel box_items ⟨(b : Int), box_width, box_height⟩ 1 equal_shrink oracle with
  | (none, st, _) =>
    { box_id := some (b : Int), packed_items := none, total_shrink := none,
      status := st, outcome := classifyStatus st,
      message := some "No feasible solution for box shrink optimization." }
  | (some packed, st, ts) =>
    { box_id := some (b : Int),
      packed_items := some (packed.map fun p => { p with box_id := (b : Int) }),
      total_shrink := ts,
      status := st, outcome := classifyStatus st,
      message := some "Box shrink optimization successful." }

/-- The full per-box Phase-2 loop: one entry per bucket, in bucket order,
every bucket solved unconditionally (the loop body never breaks). -/
def perBoxResults (buckets : List (List Item)) (box_width box_height : Int)
    (equal_shrink : Bool) (phase2 : Nat → SolveOracle) : List PerBoxPackingResult :=
  (List.range buckets.length).map fun b =>
    mkPerBoxEntry (buckets.getD b []) b box_width box_height equal_shrink (phase2 b)

/-- Per-box aggregation, lines 560-587: overall success iff no box's solve
came back without packed items; on success the overall outcome is `OPTIMAL`
iff every box's outcome is `OPTIMAL` and `FEASIBLE` otherwise; on failure the
overall outcome is `NO_SOLUTION_UNKNOWN` and the partial per-box results are
still included. -/
def perBoxAggregate (box_width box_height : Int) (status1 : CpSolverStatus)
    (min_boxes : Nat) (results : List PerBoxPackingResult) : PackingResult :=
  if results.all fun r => r.packed_items.isSome then
    { success := true,
      message := "Packing successful.",
      num_boxes_used := some (min_boxes : Int),
      status_phase1 := status1,
      outcome :=
        if results.all fun r => r.outcome == PackingOutcome.OPTIMAL then
          PackingOutcome.OPTIMAL
        else PackingOutcome.FEASIBLE,
      box_width := box_width,
      box_height := box_height,
      packing_results := results }
  else
    { success := false,
      message := "Phase 2 (Shrink Optimization) failed for some boxes.",
      num_boxes_used := some (min_boxes : Int),
      status_phase1 := status1,
      outcome := PackingOutcome.NO_SOLUTION_UNKNOWN,
      box_width := box_width,
      box_height := box_height,
      packing_results := results }

/-- Global Phase-2 branch, lines 589-656: re-solve all items together with
capacity `min_boxes` (the item list is the concatenation of the Phase-1
buckets, line 590), classify, and build the single-entry report. -/
def globalResult (buckets : List (List Item)) (box_width box_height : Int)
    (equal_shrink : Bool) (min_boxes : Nat) (status1 : CpSolverStatus)
    (oracle : SolveOracle) : PackingResult :=
  match solveModel buckets.flatten ⟨0, box_width, box_height⟩ (min_boxes : Int)
      equal_shrink oracle with
  | (none, st, _) =>
    { success := false,
      message := "Phase 2 (Global Shrink Optimization) failed.",
      num_boxes_used := some (min_boxes : Int),
      status_phase1 := status1,
      outcome := classifyStatus st,
      box_width := box_width,
      box_height := box_height,
      packing_results :=
        [{ box_id := none, packed_items := none, total_shrink := none,
           status := st, outcome := classifyStatus st,
           message := some "Global shrink optimization failed." }] }
  | (some packed, st, ts) =>
    { success := true,
      message := "Packing successful.",
      num_boxes_used := some (min_boxes : Int),
      status_phase1 := status1,
      outcome := classifyStatus st,
      box_width := box_width,
      box_height := box_height,
      packing_results :=
        [{ box_id := none, packed_items := some packed, total_shrink := ts,
           status := st, outcome := classifyStatus st,
           message := some "Global shrink optimization successful." }] }

/-- `solve_scalable_rectpack`, lines 321-656.  Raising `ValueError` /
`TypeError` is embedded as `Except.error`; the two CP-SAT invocation points
are the `phase1` oracle and the `phase2` oracle family (`phase2 b` for the
per-box solve of box `b`; `phase2 0` for the single global solve). -/
def solve_scalable_rectpack (items : List Item) (box_width box_height : Int)
    (equal_shrink : Bool) (per_box : Bool) (time_limit : Int)
    (phase1 : Phase1Oracle) (phase2 : Nat → SolveOracle) :
    Except String PackingResult :=
  match validateInputs items box_width box_height time_limit with
  | some msg => Except.error msg
  | none =>
    if statusFeasible phase1.status = false then
      Except.ok (phase1FailureResult box_width box_height phase1.status)
    else
      let min_boxes : Nat := (phase1.maxBoxIdVal + 1).toNat
      let buckets := boxToItems items phase1.vals min_boxes
      if per_box then
        Except.ok (perBoxAggregate box_width box_height phase1.status min_boxes
          (perBoxResults buckets box_width box_height equal_shrink phase2))
      else
        Except.ok (globalResult buckets box_width box_height equal_shrink
          min_boxes phase1.status (phase2 0))

/-- All packed items of a report, in report order. -/
def allPackedItems (r : PackingResult) : List PackedItem :=
  (r.packing_results.map fun e => e.packed_items.getD []).flatten

/-- The half-open rectangle separation disjunction of the spec: at least one
of the four conditions `xi+wi ≤ xj`, `xj+wj ≤ xi`, `yi+hi ≤ yj`,
`yj+hj ≤ yi`. -/
@[reducible] def separated (p q : PackedItem) : Prop :=
  p.x + p.width ≤ q.x ∨ q.x + q.width ≤ p.x ∨
  p.y + p.height ≤ q.y ∨ q.y + q.height ≤ p.y

/-- Two packed items either sit in different boxes or are separated. -/
@[reducible] def noOverlapRel (p q : PackedItem) : Prop :=
  p.box_id = q.box_id → separated p q

/-- Extract the `PackingResult` from a solve that did not raise. -/
def resultOf (e : Except String PackingResult) : PackingResult :=
  e.toOption.getD default

/-! ## Branch equations for `solve_scalable_rectpack` -/

theorem solve_eq_error (items : List Item) (bw bh : Int) (es pb : Bool) (tl : Int)
    (phase1 : Phase1Oracle) (phase2 : Nat → SolveOracle) (msg : String)
    (h : validateInputs items bw bh tl = some msg) :
    solve_scalable_rectpack items bw bh es pb tl phase1 phase2 = Except.error msg := by
  unfold solve_scalable_rectpack
  rw [h]

theorem solve_eq_phase1_failure (items : List Item) (bw bh : Int) (es pb : Bool) (tl : Int)
    (phase1 : Phase1Oracle) (phase2 : Nat → SolveOracle)
    (hval : validateInputs items bw bh tl = none)
    (h1 : statusFeasible phase1.status = false) :
    solve_scalable_rectpack items bw bh es pb tl phase1 phase2 =
      Except.ok (phase1FailureResult bw bh phase1.status) := by
  unfold solve_scalable_rectpack
  rw [hval]
  simp [h1]

theorem solve_eq_perBox (items : List Item) (bw bh : Int) (es : Bool) (tl : Int)
    (phase1 : Phase1Oracle) (phase2 : Nat → SolveOracle)
    (hval : validateInputs items bw bh tl = none)
    (h1 : statusFeasible phase1.status = true) :
    solve_scalable_rectpack items bw bh es true tl phase1 phase2 =
      Except.ok (perBoxAggregate bw bh phase1.status ((phase1.maxBoxIdVal + 1).toNat)
        (perBoxResults (boxToItems items phase1.vals ((phase1.maxBoxIdVal + 1).toNat))
          bw bh es phase2)) := by
  unfold solve_scalable_rectpack
  rw [hval]
  simp [h1]

theorem solve_eq_global (items : List Item) (bw bh : Int) (es : Bool) (tl : Int)
    (phase1 : Phase1Oracle) (phase2 : Nat → SolveOracle)
    (hval : validateInputs items bw bh tl = none)
    (h1 : statusFeasible phase1.status = true) :
    solve_scalable_rectpack items bw bh es false tl phase1 phase2 =
      Except.ok (globalResult (boxToItems items phase1.vals ((phase1.maxBoxIdVal + 1).toNat))
        bw bh es ((phase1.maxBoxIdVal + 1).toNat) phase1.status (phase2 0)) := by
  unfold solve_scalable_rectpack
  rw [hval]
  simp [h1]

/-! ## Validation characterisation -/

theorem validateItem_eq_none_iff (bw bh : Int) (it : Item) :
    validateItem bw bh it = none ↔
      (0 < it.width ∧ 0 < it.height ∧ 0 < it.width_min ∧ 0 < it.height_min ∧
       it.width_min ≤ it.width ∧ it.height_min ≤ it.height ∧
       it.width_min ≤ bw ∧ it.height_min ≤ bh) := by
  unfold validateItem
  split_ifs with h1 h2 h3 h4 h5 h6 h7 <;>
    simp <;> omega

theorem validateInputs_eq_none_iff (items : List Item) (bw bh tl : Int) :
    validateInputs items bw bh tl = none ↔
      (items ≠ [] ∧ 0 < bw ∧ 0 < bh ∧ 0 < tl ∧
       ∀ it ∈ items,
         0 < it.width ∧ 0 < it.height ∧ 0 < it.width_min ∧ 0 < it.height_min ∧
         it.width_min ≤ it.width ∧ it.height_min ≤ it.height ∧
         it.width_min ≤ bw ∧ it.height_min ≤ bh) := by
  unfold validateInputs
  split_ifs with h1 h2 h3 h4
  · simp_all [List.isEmpty_iff]
  · simp_all [List.isEmpty_iff]
  · simp_all [List.isEmpty_iff]
  · simp_all [List.isEmpty_iff]
  · rw [List.findSome?_eq_none_iff]
    simp_all [List.isEmpty_iff, validateItem_eq_none_iff]

/-! ## Properties of `solveModel` and the extracted placements -/

theorem solveModel_of_feasible (items : List Item) (box_template : Box) (max_boxes : Int)
    (equal_shrink : Bool) (oracle : SolveOracle)
    (h : statusFeasible oracle.status = true) :
    solveModel items box_template max_boxes equal_shrink oracle =
      (some (packedOf items oracle.vals), oracle.status,
        some (totalShrinkValue items oracle.vals)) := by
  simp [solveModel, h]

theorem solveModel_of_failed (items : List Item) (box_template : Box) (max_boxes : Int)
    (equal_shrink : Bool) (oracle : SolveOracle)
    (h : statusFeasible oracle.status = false) :
    solveModel items box_template max_boxes equal_shrink oracle =
      (none, oracle.status, none) := by
  simp [solveModel, h]

theorem packedOf_getElem (items : List Item) (vals : List ItemVals) (k : Nat)
    (hk : k < (packedOf items vals).length) :
    ∃ (hki : k < items.length) (hkv : k < vals.length),
      (packedOf items vals)[k] =
        { id := items[k].id, x := vals[k].x, y := vals[k].y,
          width := vals[k].w, height := vals[k].h, box_id := vals[k].box_id } := by
  have hlen : k < items.length ∧ k < vals.length := by
    simp only [packedOf, List.length_map, List.length_zip] at hk
    omega
  refine ⟨hlen.1, hlen.2, ?_⟩
  simp [packedOf, List.getElem_zip]

/-- From the pair constraints, two items placed in the same box satisfy one of
the four half-open separation conditions. -/
theorem pairSat_same_box_sep (vi vj : ItemVals) (b : PairBools)
    (h : pairSat vi vj b) (heq : vi.box_id = vj.box_id) :
    vi.x + vi.w ≤ vj.x ∨ vj.x + vj.w ≤ vi.x ∨
    vi.y + vi.h ≤ vj.y ∨ vj.y + vj.h ≤ vi.y := by
  obtain ⟨hdne, hdeq, hl, hr, hb, ha, hor⟩ := h
  rcases hor with h1 | h1 | h1 | h1 | h1
  · exact Or.inl (hl h1)
  · exact Or.inr (Or.inl (hr h1))
  · exact Or.inr (Or.inr (Or.inr (ha h1)))
  · exact Or.inr (Or.inr (Or.inl (hb h1)))
  · exact absurd heq (hdne h1)

/-- Any constraint-satisfying assignment yields placements in which same-box
items are pairwise separated. -/
theorem packedOf_pairwise_noOverlap (items : List Item) (box : Box) (mb : Int)
    (es : Bool) (vals : List ItemVals) (bools : Nat → Nat → PairBools)
    (h : ModelSat items box mb es vals bools) :
    (packedOf items vals).Pairwise noOverlapRel := by
  obtain ⟨⟨hlen, hitems⟩, hpairs⟩ := h
  rw [List.pairwise_iff_getElem]
  intro i j hi hj hij
  obtain ⟨hii, hiv, hieq⟩ := packedOf_getElem items vals i hi
  obtain ⟨hji, hjv, hjeq⟩ := packedOf_getElem items vals j hj
  rw [hieq, hjeq]
  intro hbox
  have hp := hpairs i hiv j hjv hij
  rw [List.getD_eq_getElem _ _ hiv, List.getD_eq_getElem _ _ hjv] at hp
  exact pairSat_same_box_sep _ _ _ hp hbox

/-- With box capacity 1 every box-assignment variable is pinned to 0, so the
pair constraints force plain geometric separation for every pair. -/
theorem packedOf_pairwise_sep_capacity_one (items : List Item) (box : Box)
    (es : Bool) (vals : List ItemVals) (bools : Nat → Nat → PairBools)
    (h : ModelSat items box 1 es vals bools) :
    (packedOf items vals).Pairwise fun p q => separated p q := by
  obtain ⟨⟨hlen, hitems⟩, hpairs⟩ := h
  rw [List.pairwise_iff_getElem]
  intro i j hi hj hij
  obtain ⟨hii, hiv, hieq⟩ := packedOf_getElem items vals i hi
  obtain ⟨hji, hjv, hjeq⟩ := packedOf_getElem items vals j hj
  have hboxi : vals[i].box_id = 0 := by
    have hs := hitems i hiv
    rw [List.getD_eq_getElem _ _ hiv] at hs
    have h1 := hs.1
    have h2 := hs.2.1
    omega
  have hboxj : vals[j].box_id = 0 := by
    have hs := hitems j hjv
    rw [List.getD_eq_getElem _ _ hjv] at hs
    have h1 := hs.1
    have h2 := hs.2.1
    omega
  have hp := hpairs i hiv j hjv hij
  rw [List.getD_eq_getElem _ _ hiv, List.getD_eq_getElem _ _ hjv] at hp
  rw [hieq, hjeq]
  exact pairSat_same_box_sep _ _ _ hp (by rw [hboxi, hboxj])

/-- Overwriting every `box_id` with a constant preserves pairwise
separation, hence yields the non-overlap relation. -/
theorem separated_map_setBox {l : List PackedItem} (b : Int)
    (h : l.Pairwise fun p q => separated p q) :
    (l.map fun p => { p with box_id := b }).Pairwise noOverlapRel := by
  rw [List.pairwise_map]
  exact h.imp fun hsep => fun _ => hsep

theorem mem_map_setBox_box_id {l : List PackedItem} {b : Int} {p : PackedItem}
    (hp : p ∈ l.map fun q => { q with box_id := b }) : p.box_id = b := by
  obtain ⟨q, _, rfl⟩ := List.mem_map.mp hp
  rfl

/-- The dimension bounds declared in `_add_item_variables` carry over to the
extracted `PackedItem`s: each placement's final size lies within the source
item's `[minimum, original]` range on both axes. -/
theorem packedOf_dims_in_range (items' : List Item) (box : Box) (mb : Int) (es : Bool)
    (vals : List ItemVals) (h : ItemsSat items' box mb es vals)
    {p : PackedItem} (hp : p ∈ packedOf items' vals) :
    ∃ it ∈ items', it.id = p.id ∧ it.width_min ≤ p.width ∧ p.width ≤ it.width ∧
      it.height_min ≤ p.height ∧ p.height ≤ it.height := by
  obtain ⟨hlen, hitems⟩ := h
  obtain ⟨k, hk, rfl⟩ := List.mem_iff_getElem.mp hp
  obtain ⟨hki, hkv, heq⟩ := packedOf_getElem items' vals k hk
  have hs := hitems k hkv
  rw [List.getD_eq_getElem _ _ hkv, List.getD_eq_getElem _ _ hki] at hs
  obtain ⟨_, _, _, _, _, _, h7, h8, h9, h10, _, _, _⟩ := hs
  rw [heq]
  exact ⟨items'[k], List.getElem_mem hki, rfl, h7, h8, h9, h10⟩

/-! ## Properties of the per-box machinery -/

theorem mkPerBoxEntry_of_feasible (box_items : List Item) (b : Nat) (bw bh : Int)
    (es : Bool) (oracle : SolveOracle) (h : statusFeasible oracle.status = true) :
    mkPerBoxEntry box_items b bw bh es oracle =
      { box_id := some (b : Int),
        packed_items := some ((packedOf box_items oracle.vals).map
          fun p => { p with box_id := (b : Int) }),
        total_shrink := some (totalShrinkValue box_items oracle.vals),
        status := oracle.status,
        outcome := classifyStatus oracle.status,
        message := some "Box shrink optimization successful." } := by
  unfold mkPerBoxEntry
  rw [solveModel_of_feasible _ _ _ _ _ h]

theorem mkPerBoxEntry_of_failed (box_items : List Item) (b : Nat) (bw bh : Int)
    (es : Bool) (oracle : SolveOracle) (h : statusFeasible oracle.status = false) :
    mkPerBoxEntry box_items b bw bh es oracle =
      { box_id := some (b : Int), packed_items := none, total_shrink := none,
        status := oracle.status,
        outcome := classifyStatus oracle.status,
        message := some "No feasible solution for box shrink optimization." } := by
  unfold mkPerBoxEntry
  rw [solveModel_of_failed _ _ _ _ _ h]

theorem perBoxResults_length (buckets : List (List Item)) (bw bh : Int) (es : Bool)
    (phase2 : Nat → SolveOracle) :
    (perBoxResults buckets bw bh es phase2).length = buckets.length := by
  simp [perBoxResults]

theorem perBoxResults_getElem (buckets : List (List Item)) (bw bh : Int) (es : Bool)
    (phase2 : Nat → SolveOracle) (b : Nat)
    (hb : b < (perBoxResults buckets bw bh es phase2).length) :
    (perBoxResults buckets bw bh es phase2)[b] =
      mkPerBoxEntry (buckets.getD b []) b bw bh es (phase2 b) := by
  simp [perBoxResults]

theorem perBoxAggregate_packing_results (bw bh : Int) (s : CpSolverStatus)
    (mb : Nat) (results : List PerBoxPackingResult) :
    (perBoxAggregate bw bh s mb results).packing_results = results := by
  unfold perBoxAggregate
  split <;> rfl

theorem perBoxAggregate_success (bw bh : Int) (s : CpSolverStatus)
    (mb : Nat) (results : List PerBoxPackingResult) :
    (perBoxAggregate bw bh s mb results).success =
      results.all fun r => r.packed_items.isSome := by
  unfold perBoxAggregate
  split <;> simp_all

theorem perBoxAggregate_num_boxes (bw bh : Int) (s : CpSolverStatus)
    (mb : Nat) (results : List PerBoxPackingResult) :
    (perBoxAggregate bw bh s mb results).num_boxes_used = some (mb : Int) := by
  unfold perBoxAggregate
  split <;> rfl

theorem perBoxAggregate_outcome_ok (bw bh : Int) (s : CpSolverStatus)
    (mb : Nat) (results : List PerBoxPackingResult)
    (h : (results.all fun r => r.packed_items.isSome) = true) :
    (perBoxAggregate bw bh s mb results).outcome =
      if results.all fun r => r.outcome == PackingOutcome.OPTIMAL then
        PackingOutcome.OPTIMAL
      else PackingOutcome.FEASIBLE := by
  unfold perBoxAggregate
  rw [if_pos h]

theorem perBoxAggregate_outcome_failed (bw bh : Int) (s : CpSolverStatus)
    (mb : Nat) (results : List PerBoxPackingResult)
    (h : (results.all fun r => r.packed_items.isSome) = false) :
    (perBoxAggregate bw bh s mb results).outcome =
      PackingOutcome.NO_SOLUTION_UNKNOWN := by
  unfold perBoxAggregate
  rw [if_neg (by simp [h])]

/-! ## Bucket membership -/

theorem mem_boxToItems (items : List Item) (vals : List ItemVals) (mb : Nat)
    {l : List Item} (hl : l ∈ boxToItems items vals mb) : ∀ it ∈ l, it ∈ items := by
  intro it hit
  obtain ⟨b, hb, rfl⟩ := List.mem_map.mp hl
  obtain ⟨p, hp, rfl⟩ := List.mem_map.mp hit
  exact (List.of_mem_zip (List.mem_filter.mp hp).1).1

theorem mem_boxToItems_getD (items : List Item) (vals : List ItemVals) (mb b : Nat)
    {it : Item} (hit : it ∈ (boxToItems items vals mb).getD b []) : it ∈ items := by
  by_cases hb : b < (boxToItems items vals mb).length
  · rw [List.getD_eq_getElem _ _ hb] at hit
    exact mem_boxToItems items vals mb (List.getElem_mem hb) it hit
  · rw [List.getD_eq_default _ _ (by omega)] at hit
    cases hit

theorem mem_boxToItems_flatten (items : List Item) (vals : List ItemVals) (mb : Nat)
    {it : Item} (hit : it ∈ (boxToItems items vals mb).flatten) : it ∈ items := by
  obtain ⟨l, hl, hit'⟩ := List.mem_flatten.mp hit
  exact mem_boxToItems items vals mb hl it hit'

theorem boxToItems_length (items : List Item) (vals : List ItemVals) (mb : Nat) :
    (boxToItems items vals mb).length = mb := by
  unfold boxToItems
  rw [List.length_map, List.length_range]

/-- The buckets the solve partitions the items into, given the Phase-1
oracle (`min_boxes = max_box_id value + 1`). -/
@[reducible] def bucketsOf (items : List Item) (phase1 : Phase1Oracle) : List (List Item) :=
  boxToItems items phase1.vals ((phase1.maxBoxIdVal + 1).toNat)

/-- The packed-item list of a per-box entry is pairwise non-overlapping
whenever the oracle's values satisfy the box's capacity-1 model. -/
theorem entryPacked_pairwise (box_items : List Item) (b : Nat) (bw bh : Int)
    (es : Bool) (oracle : SolveOracle)
    (hms : statusFeasible oracle.status = true →
      ∃ bools, ModelSat box_items ⟨(b : Int), bw, bh⟩ 1 es oracle.vals bools) :
    ((mkPerBoxEntry box_items b bw bh es oracle).packed_items.getD []).Pairwise
      noOverlapRel := by
  cases h : statusFeasible oracle.status with
  | false =>
    rw [mkPerBoxEntry_of_failed _ _ _ _ _ _ h]
    simp
  | true =>
    obtain ⟨bools, hm⟩ := hms h
    rw [mkPerBoxEntry_of_feasible _ _ _ _ _ _ h]
    exact separated_map_setBox _ (packedOf_pairwise_sep_capacity_one _ _ _ _ _ hm)

/-- Every packed item of the per-box entry for box `b` carries `box_id = b`
(the code overwrites the model's box id, line 546). -/
theorem entryPacked_box_id (box_items : List Item) (b : Nat) (bw bh : Int)
    (es : Bool) (oracle : SolveOracle) {p : PackedItem}
    (hp : p ∈ (mkPerBoxEntry box_items b bw bh es oracle).packed_items.getD []) :
    p.box_id = (b : Int) := by
  cases h : statusFeasible oracle.status with
  | false =>
    rw [mkPerBoxEntry_of_failed _ _ _ _ _ _ h] at hp
    simp at hp
  | true =>
    rw [mkPerBoxEntry_of_feasible _ _ _ _ _ _ h] at hp
    exact mem_map_setBox_box_id hp

/-- Dimension-range transfer for a per-box entry. -/
theorem entryPacked_dims (box_items : List Item) (b : Nat) (bw bh : Int)
    (es : Bool) (oracle : SolveOracle)
    (hms : statusFeasible oracle.status = true →
      ItemsSat box_items ⟨(b : Int), bw, bh⟩ 1 es oracle.vals)
    {packed : List PackedItem}
    (hp : (mkPerBoxEntry box_items b bw bh es oracle).packed_items = some packed)
    {p : PackedItem} (hmem : p ∈ packed) :
    ∃ it ∈ box_items, it.id = p.id ∧ it.width_min ≤ p.width ∧ p.width ≤ it.width ∧
      it.height_min ≤ p.height ∧ p.height ≤ it.height := by
  cases h : statusFeasible oracle.status with
  | false =>
    rw [mkPerBoxEntry_of_failed _ _ _ _ _ _ h] at hp
    simp at hp
  | true =>
    rw [mkPerBoxEntry_of_feasible _ _ _ _ _ _ h] at hp
    injection hp with hp'
    subst hp'
    obtain ⟨q, hq, rfl⟩ := List.mem_map.mp hmem
    obtain ⟨it, hit, hid, h1, h2, h3, h4⟩ :=
      packedOf_dims_in_range box_items _ 1 es oracle.vals (hms h) hq
    exact ⟨it, hit, hid, h1, h2, h3, h4⟩

/-! ## Concrete fixtures -/

/-- A 2x2 item shrinkable down to 1x1. -/
def itemA : Item := ⟨1, 2, 2, 1, 1⟩

def itemsA : List Item := [itemA]

def boxA : Box := ⟨0, 10, 10⟩

/-- A solution placing `itemA` unshrunk at the origin of box 0. -/
def valsA : List ItemVals := [⟨0, 0, 0, 2, 2, 0⟩]

def boolsA : Nat → Nat → PairBools := fun _ _ => ⟨false, false, false, false, true⟩

def oracleA : SolveOracle := ⟨CpSolverStatus.OPTIMAL, valsA⟩

def phase2A : Nat → SolveOracle := fun _ => oracleA

def phase1A : Phase1Oracle := ⟨CpSolverStatus.OPTIMAL, valsA, 0⟩


/-! ## C1: no two same-box placements overlap -/

/-- **C1.** For every solve (per-box or global mode), assuming the solver only
returns assignments satisfying the model's constraints, no two returned
`PackedItem`s assigned the same `box_id` overlap: every unordered pair of
returned items in the same box satisfies at least one of the four half-open
separation conditions. -/
theorem solve_no_overlap_within_box
    (items : List Item) (bw bh : Int) (es pb : Bool) (tl : Int)
    (phase1 : Phase1Oracle) (phase2 : Nat → SolveOracle)
    (hper : pb = true → ∀ b, b < (phase1.maxBoxIdVal + 1).toNat →
      statusFeasible (phase2 b).status = true →
      ∃ bools, ModelSat ((bucketsOf items phase1).getD b []) ⟨(b : Int), bw, bh⟩ 1 es
        (phase2 b).vals bools)
    (hglob : pb = false → statusFeasible (phase2 0).status = true →
      ∃ bools, ModelSat (bucketsOf items phase1).flatten ⟨0, bw, bh⟩
        (((phase1.maxBoxIdVal + 1).toNat : Nat) : Int) es (phase2 0).vals bools)
    (r : PackingResult)
    (hr : solve_scalable_rectpack items bw bh es pb tl phase1 phase2 = Except.ok r) :
    (allPackedItems r).Pairwise noOverlapRel := by
  cases hval : validateInputs items bw bh tl with
  | some msg =>
    rw [solve_eq_error _ _ _ _ _ _ _ _ msg hval] at hr
    cases hr
  | none =>
    cases h1 : statusFeasible phase1.status with
    | false =>
      rw [solve_eq_phase1_failure _ _ _ _ _ _ _ _ hval h1] at hr
      injection hr with hr'
      subst hr'
      simp [allPackedItems, phase1FailureResult]
    | true =>
      cases pb with
      | false =>
        rw [solve_eq_global _ _ _ _ _ _ _ hval h1] at hr
        injection hr with hr'
        subst hr'
        cases h2 : statusFeasible (phase2 0).status with
        | false =>
          simp [allPackedItems, globalResult, solveModel_of_failed _ _ _ _ _ h2]
        | true =>
          obtain ⟨bools, hms⟩ := hglob rfl h2
          simp only [allPackedItems, globalResult, solveModel_of_feasible _ _ _ _ _ h2,
            List.map_cons, List.map_nil, Option.getD_some, List.flatten_cons,
            List.flatten_nil, List.append_nil]
          exact packedOf_pairwise_noOverlap _ _ _ _ _ _ hms
      | true =>
        rw [solve_eq_perBox _ _ _ _ _ _ _ hval h1] at hr
        injection hr with hr'
        subst hr'
        unfold allPackedItems
        rw [perBoxAggregate_packing_results]
        unfold perBoxResults
        rw [List.map_map, List.pairwise_flatten]
        constructor
        · intro l hl
          obtain ⟨b, hb, rfl⟩ := List.mem_map.mp hl
          have hblt : b < (phase1.maxBoxIdVal + 1).toNat := by
            have := List.mem_range.mp hb
            rwa [boxToItems_length] at this
          exact entryPacked_pairwise _ _ _ _ _ _ (fun hst => hper rfl b hblt hst)
        · rw [List.pairwise_map]
          refine (List.pairwise_lt_range _).imp ?_
          intro b b' hbb
          intro x hx y hy hxy
          have hxb := entryPacked_box_id _ _ _ _ _ _ hx
          have hyb := entryPacked_box_id _ _ _ _ _ _ hy
          rw [hxb, hyb] at hxy
          have hne : (b : Int) ≠ (b' : Int) := by
            exact_mod_cast Nat.ne_of_lt hbb
          exact absurd hxy hne

theorem solve_no_overlap_witness :
    statusFeasible phase1A.status = true ∧
    (allPackedItems (resultOf (solve_scalable_rectpack itemsA 10 10 false true 1
      phase1A phase2A))).Pairwise noOverlapRel :=
  ⟨by decide,
   solve_no_overlap_within_box itemsA 10 10 false true 1 phase1A phase2A
     (fun _ b hb hst => by
       rw [show (phase1A.maxBoxIdVal + 1).toNat = 1 from rfl] at hb
       have hb0 : b = 0 := by omega
       subst hb0
       exact ⟨boolsA, by decide⟩)
     (fun h => absurd h (by decide))
     (resultOf (solve_scalable_rectpack itemsA 10 10 false true 1 phase1A phase2A))
     rfl⟩

/-! ## C2: final dimensions lie within the declared ranges -/

/-- **C2.** For every `PackedItem` returned in any `PerBoxPackingResult` of a
solve on valid input, assuming the solver only returns values within each
declared variable's bounds, the final dimensions lie within the source item's
allowed range per axis: `width_min ≤ width ≤ original width` and
`height_min ≤ height ≤ original height`. -/
theorem solve_packed_dims_in_range
    (items : List Item) (bw bh : Int) (es pb : Bool) (tl : Int)
    (phase1 : Phase1Oracle) (phase2 : Nat → SolveOracle)
    (hval : validateInputs items bw bh tl = none)
    (hper : pb = true → ∀ b, b < (phase1.maxBoxIdVal + 1).toNat →
      statusFeasible (phase2 b).status = true →
      ItemsSat ((bucketsOf items phase1).getD b []) ⟨(b : Int), bw, bh⟩ 1 es
        (phase2 b).vals)
    (hglob : pb = false → statusFeasible (phase2 0).status = true →
      ItemsSat (bucketsOf items phase1).flatten ⟨0, bw, bh⟩
        (((phase1.maxBoxIdVal + 1).toNat : Nat) : Int) es (phase2 0).vals)
    (r : PackingResult)
    (hr : solve_scalable_rectpack items bw bh es pb tl phase1 phase2 = Except.ok r) :
    ∀ e ∈ r.packing_results, ∀ packed, e.packed_items = some packed →
      ∀ p ∈ packed, ∃ it ∈ items, it.id = p.id ∧
        it.width_min ≤ p.width ∧ p.width ≤ it.width ∧
        it.height_min ≤ p.height ∧ p.height ≤ it.height := by
  cases h1 : statusFeasible phase1.status with
  | false =>
    rw [solve_eq_phase1_failure _ _ _ _ _ _ _ _ hval h1] at hr
    injection hr with hr'
    subst hr'
    intro e he
    simp [phase1FailureResult] at he
  | true =>
    cases pb with
    | false =>
      rw [solve_eq_global _ _ _ _ _ _ _ hval h1] at hr
      injection hr with hr'
      subst hr'
      intro e he packed hpacked p hp
      cases h2 : statusFeasible (phase2 0).status with
      | false =>
        rw [globalResult] at he
        rw [solveModel_of_failed _ _ _ _ _ h2] at he
        simp at he
        subst he
        simp at hpacked
      | true =>
        rw [globalResult] at he
        rw [solveModel_of_feasible _ _ _ _ _ h2] at he
        simp at he
        subst he
        simp at hpacked
        subst hpacked
        obtain ⟨it, hit, hid, hw1, hw2, hh1, hh2⟩ :=
          packedOf_dims_in_range _ _ _ _ _ (hglob rfl h2) hp
        exact ⟨it, mem_boxToItems_flatten _ _ _ hit, hid, hw1, hw2, hh1, hh2⟩
    | true =>
      rw [solve_eq_perBox _ _ _ _ _ _ _ hval h1] at hr
      injection hr with hr'
      subst hr'
      intro e he packed hpacked p hp
      rw [perBoxAggregate_packing_results] at he
      unfold perBoxResults at he
      obtain ⟨b, hb, rfl⟩ := List.mem_map.mp he
      have hblt : b < (phase1.maxBoxIdVal + 1).toNat := by
        have := List.mem_range.mp hb
        rwa [boxToItems_length] at this
      obtain ⟨it, hit, hid, hw1, hw2, hh1, hh2⟩ :=
        entryPacked_dims _ _ _ _ _ _ (fun hst => hper rfl b hblt hst) hpacked hp
      exact ⟨it, mem_boxToItems_getD _ _ _ _ hit, hid, hw1, hw2, hh1, hh2⟩

theorem solve_packed_dims_witness :
    validateInputs itemsA 10 10 1 = none ∧
    ∀ p ∈ ((resultOf (solve_scalable_rectpack itemsA 10 10 false true 1 phase1A
        phase2A)).packing_results.map fun e => e.packed_items.getD []).flatten,
      ∃ it ∈ itemsA, it.id = p.id ∧ it.width_min ≤ p.width ∧ p.width ≤ it.width ∧
        it.height_min ≤ p.height ∧ p.height ≤ it.height := by
  refine ⟨by decide, ?_⟩
  intro p hp
  obtain ⟨l, hl, hpl⟩ := List.mem_flatten.mp hp
  obtain ⟨e, he, rfl⟩ := List.mem_map.mp hl
  cases hpe : e.packed_items with
  | none =>
    rw [hpe] at hpl
    simp at hpl
  | some packed =>
    rw [hpe] at hpl
    simp only [Option.getD_some] at hpl
    exact solve_packed_dims_in_range itemsA 10 10 false true 1 phase1A phase2A
      (by decide)
      (fun _ b hb hst => by
        rw [show (phase1A.maxBoxIdVal + 1).toNat = 1 from rfl] at hb
        have hb0 : b = 0 := by omega
        subst hb0
        exact by decide)
      (fun h => absurd h (by decide))
      (resultOf (solve_scalable_rectpack itemsA 10 10 false true 1 phase1A phase2A))
      rfl e he packed hpe p hpl

/-! ## C3: Phase-1 failure short-circuits the solve -/

/-- **C3.** On valid input, if the Phase-1 solve terminates with a status other
than proven-optimal or feasible, the solve returns a `PackingResult` with
`success = false`, `num_boxes_used = none` and an empty `packing_results`
list, and the result does not depend on the Phase-2 oracle at all — no
Phase-2 model is built or solved. -/
theorem phase1_failure_short_circuits
    (items : List Item) (bw bh : Int) (es pb : Bool) (tl : Int)
    (phase1 : Phase1Oracle) (phase2 phase2' : Nat → SolveOracle)
    (hval : validateInputs items bw bh tl = none)
    (h1 : statusFeasible phase1.status = false) :
    solve_scalable_rectpack items bw bh es pb tl phase1 phase2 =
      Except.ok (phase1FailureResult bw bh phase1.status) ∧
    (phase1FailureResult bw bh phase1.status).success = false ∧
    (phase1FailureResult bw bh phase1.status).num_boxes_used = none ∧
    (phase1FailureResult bw bh phase1.status).packing_results = [] ∧
    solve_scalable_rectpack items bw bh es pb tl phase1 phase2 =
      solve_scalable_rectpack items bw bh es pb tl phase1 phase2' := by
  refine ⟨solve_eq_phase1_failure _ _ _ _ _ _ _ _ hval h1, rfl, rfl, rfl, ?_⟩
  rw [solve_eq_phase1_failure _ _ _ _ _ _ _ _ hval h1,
    solve_eq_phase1_failure _ _ _ _ _ _ _ _ hval h1]

theorem phase1_failure_short_circuits_witness :
    validateInputs itemsA 10 10 1 = none ∧
    statusFeasible CpSolverStatus.INFEASIBLE = false ∧
    solve_scalable_rectpack itemsA 10 10 false false 1 ⟨CpSolverStatus.INFEASIBLE, [], 0⟩
        phase2A = Except.ok (phase1FailureResult 10 10 CpSolverStatus.INFEASIBLE) :=
  ⟨by decide, by decide,
   (phase1_failure_short_circuits itemsA 10 10 false false 1
      ⟨CpSolverStatus.INFEASIBLE, [], 0⟩ phase2A
      (fun _ => ⟨CpSolverStatus.UNKNOWN, []⟩) (by decide) (by decide)).1⟩

/-! ## C4: status classification -/

/-- **C4** counterexample: after a Phase-1 solve terminating with the
unrecognized status `MODEL_INVALID`, the code classifies the overall outcome
as `NO_SOLUTION_TIMEOUT` (lines 474-478 fall back to timeout for every
non-INFEASIBLE failure), not `NO_SOLUTION_UNKNOWN` as the claim's uniform
mapping would require. -/
theorem classify_phase1_unrecognized_counterexample :
    (resultOf (solve_scalable_rectpack itemsA 10 10 false false 1
        ⟨CpSolverStatus.MODEL_INVALID, [], 0⟩ phase2A)).outcome =
      PackingOutcome.NO_SOLUTION_TIMEOUT ∧
    PackingOutcome.NO_SOLUTION_TIMEOUT ≠ PackingOutcome.NO_SOLUTION_UNKNOWN := by
  decide

/-- **C4** (amended): the Phase-2 classification (applied after each per-box
solve and after the global solve, `classifyStatus`) maps OPTIMAL → OPTIMAL,
FEASIBLE → FEASIBLE, INFEASIBLE → NO_SOLUTION_INFEASIBLE,
UNKNOWN → NO_SOLUTION_TIMEOUT and any other unrecognized status
(MODEL_INVALID) → NO_SOLUTION_UNKNOWN; the Phase-1 failure classification
(`phase1FailureOutcome`) maps INFEASIBLE → NO_SOLUTION_INFEASIBLE and every
other failing status — UNKNOWN as well as unrecognized ones — to
NO_SOLUTION_TIMEOUT. -/
theorem status_outcome_classification :
    classifyStatus CpSolverStatus.OPTIMAL = PackingOutcome.OPTIMAL ∧
    classifyStatus CpSolverStatus.FEASIBLE = PackingOutcome.FEASIBLE ∧
    classifyStatus CpSolverStatus.INFEASIBLE = PackingOutcome.NO_SOLUTION_INFEASIBLE ∧
    classifyStatus CpSolverStatus.UNKNOWN = PackingOutcome.NO_SOLUTION_TIMEOUT ∧
    classifyStatus CpSolverStatus.MODEL_INVALID = PackingOutcome.NO_SOLUTION_UNKNOWN ∧
    phase1FailureOutcome CpSolverStatus.INFEASIBLE = PackingOutcome.NO_SOLUTION_INFEASIBLE ∧
    phase1FailureOutcome CpSolverStatus.UNKNOWN = PackingOutcome.NO_SOLUTION_TIMEOUT ∧
    phase1FailureOutcome CpSolverStatus.MODEL_INVALID = PackingOutcome.NO_SOLUTION_TIMEOUT := by
  decide

/-! ## C6: invalid input is rejected before any solving -/

/-- The precondition violations enumerated in spec §6: empty item list,
non-positive box dimensions or time limit, an item with a non-positive
dimension or minimum, a minimum exceeding the preferred size, or a minimum
exceeding the box. -/
@[reducible] def violatesPreconditions (items : List Item) (bw bh tl : Int) : Prop :=
  items = [] ∨ bw ≤ 0 ∨ bh ≤ 0 ∨ tl ≤ 0 ∨
  ∃ it ∈ items,
    (it.width ≤ 0 ∨ it.height ≤ 0 ∨ it.width_min ≤ 0 ∨ it.height_min ≤ 0 ∨
     it.width < it.width_min ∨ it.height < it.height_min ∨
     bw < it.width_min ∨ bh < it.height_min)

/-- **C6.** Every input violating a precondition is rejected by the input
validation, and the solve raises (returns `Except.error`) uniformly for every
solver oracle — before any model is created or any solver call is made. -/
theorem invalid_input_rejected_before_solving
    (items : List Item) (bw bh tl : Int)
    (hbad : violatesPreconditions items bw bh tl) :
    (validateInputs items bw bh tl).isSome = true ∧
    ∀ (es pb : Bool) (phase1 : Phase1Oracle) (phase2 : Nat → SolveOracle),
      solve_scalable_rectpack items bw bh es pb tl phase1 phase2 =
        Except.error ((validateInputs items bw bh tl).getD "") := by
  have hne : validateInputs items bw bh tl ≠ none := by
    intro h
    rw [validateInputs_eq_none_iff] at h
    obtain ⟨hni, hbw, hbh, htl, hitems⟩ := h
    rcases hbad with h | h | h | h | ⟨it, hit, hviol⟩
    · exact hni h
    · omega
    · omega
    · omega
    · have := hitems it hit
      omega
  obtain ⟨msg, hmsg⟩ := Option.ne_none_iff_exists'.mp hne
  refine ⟨by rw [hmsg]; rfl, fun es pb phase1 phase2 => ?_⟩
  rw [solve_eq_error _ _ _ _ _ _ _ _ msg hmsg, hmsg]
  rfl

/-- An item whose `width_min` (25) exceeds the box width (10) while the item
data itself is self-consistent — spec Scenario C. -/
def itemScenC : Item := ⟨1, 30, 2, 25, 1⟩

theorem invalid_input_rejected_witness :
    violatesPreconditions [itemScenC] 10 10 1 ∧
    (validateInputs [itemScenC] 10 10 1).isSome = true ∧
    solve_scalable_rectpack [itemScenC] 10 10 false true 1 phase1A phase2A =
      Except.error ((validateInputs [itemScenC] 10 10 1).getD "") :=
  ⟨by decide,
   (invalid_input_rejected_before_solving [itemScenC] 10 10 1 (by decide)).1,
   (invalid_input_rejected_before_solving [itemScenC] 10 10 1
      (by decide)).2 false true phase1A phase2A⟩

/-! ## C7: the Phase-1 objective variable -/

/-- **C7** counterexample: with `n = 1` item, `max_box_id` is declared with
domain `[0, len(item_vars)] = [0, n]` (line 256), so the value
`max_box_id = 1 = n` satisfies the Phase-1 objective constraints, while the
claimed bound `[0, n-1]` would force `max_box_id ≤ 0`. -/
theorem phase1_max_box_id_bound_counterexample :
    Phase1ObjectiveSat 1 valsA 1 ∧ ¬((1 : Int) ≤ (1 : Int) - 1) := by
  decide

/-- **C7** (amended): the Phase-1 auxiliary variable `max_box_id` is bounded
by `[0, n]` (not `[0, n-1]`), every item's box-assignment variable is
constrained `≤ max_box_id`, and `max_box_id` is the minimisation objective
(`phase1Objective`).  The slack upper bound is harmless: under the item
variable bounds the value `n - 1` already satisfies all the `max_box_id`
constraints, so the minimum is never forced up to `n`. -/
theorem phase1_objective_model
    (items : List Item) (box : Box) (es : Bool) (vals : List ItemVals)
    (bools : Nat → Nat → PairBools) (m : Int)
    (hne : items ≠ [])
    (hsat : ModelSat items box (items.length : Int) es vals bools)
    (hobj : Phase1ObjectiveSat items.length vals m) :
    (0 ≤ phase1Objective m ∧ phase1Objective m ≤ (items.length : Int)) ∧
    (∀ v ∈ vals, v.box_id ≤ phase1Objective m) ∧
    Phase1ObjectiveSat items.length vals ((items.length : Int) - 1) := by
  obtain ⟨h0, hn, hv⟩ := hobj
  have hpos : 0 < items.length := List.length_pos.mpr hne
  refine ⟨⟨h0, hn⟩, hv, by omega, by omega, ?_⟩
  intro v hv'
  obtain ⟨hlen, hitems⟩ := hsat.1
  obtain ⟨k, hk, rfl⟩ := List.mem_iff_getElem.mp hv'
  have hks := hitems k hk
  rw [List.getD_eq_getElem _ _ hk] at hks
  exact hks.2.1

theorem phase1_objective_model_witness :
    ModelSat itemsA boxA (itemsA.length : Int) false valsA boolsA ∧
    Phase1ObjectiveSat itemsA.length valsA 0 ∧
    Phase1ObjectiveSat itemsA.length valsA ((itemsA.length : Int) - 1) :=
  ⟨by decide, by decide,
   (phase1_objective_model itemsA boxA false valsA boolsA 0 (by decide)
      (by decide) (by decide)).2.2⟩

/-! ## Per-box entry projections -/

theorem mkPerBoxEntry_isSome (box_items : List Item) (b : Nat) (bw bh : Int)
    (es : Bool) (oracle : SolveOracle) :
    (mkPerBoxEntry box_items b bw bh es oracle).packed_items.isSome =
      statusFeasible oracle.status := by
  cases h : statusFeasible oracle.status with
  | false => rw [mkPerBoxEntry_of_failed _ _ _ _ _ _ h]; rfl
  | true => rw [mkPerBoxEntry_of_feasible _ _ _ _ _ _ h]; rfl

theorem mkPerBoxEntry_outcome (box_items : List Item) (b : Nat) (bw bh : Int)
    (es : Bool) (oracle : SolveOracle) :
    (mkPerBoxEntry box_items b bw bh es oracle).outcome =
      classifyStatus oracle.status := by
  cases h : statusFeasible oracle.status with
  | false => rw [mkPerBoxEntry_of_failed _ _ _ _ _ _ h]
  | true => rw [mkPerBoxEntry_of_feasible _ _ _ _ _ _ h]

theorem mkPerBoxEntry_box_id_eq (box_items : List Item) (b : Nat) (bw bh : Int)
    (es : Bool) (oracle : SolveOracle) :
    (mkPerBoxEntry box_items b bw bh es oracle).box_id = some (b : Int) := by
  cases h : statusFeasible oracle.status with
  | false => rw [mkPerBoxEntry_of_failed _ _ _ _ _ _ h]
  | true => rw [mkPerBoxEntry_of_feasible _ _ _ _ _ _ h]

theorem globalResult_of_failed (buckets : List (List Item)) (bw bh : Int) (es : Bool)
    (mb : Nat) (s1 : CpSolverStatus) (oracle : SolveOracle)
    (h : statusFeasible oracle.status = false) :
    globalResult buckets bw bh es mb s1 oracle =
      { success := false,
        message := "Phase 2 (Global Shrink Optimization) failed.",
        num_boxes_used := some (mb : Int), status_phase1 := s1,
        outcome := classifyStatus oracle.status, box_width := bw, box_height := bh,
        packing_results :=
          [{ box_id := none, packed_items := none, total_shrink := none,
             status := oracle.status, outcome := classifyStatus oracle.status,
             message := some "Global shrink optimization failed." }] } := by
  unfold globalResult
  rw [solveModel_of_failed _ _ _ _ _ h]

theorem globalResult_of_feasible (buckets : List (List Item)) (bw bh : Int) (es : Bool)
    (mb : Nat) (s1 : CpSolverStatus) (oracle : SolveOracle)
    (h : statusFeasible oracle.status = true) :
    globalResult buckets bw bh es mb s1 oracle =
      { success := true,
        message := "Packing successful.",
        num_boxes_used := some (mb : Int), status_phase1 := s1,
        outcome := classifyStatus oracle.status, box_width := bw, box_height := bh,
        packing_results :=
          [{ box_id := none,
             packed_items := some (packedOf buckets.flatten oracle.vals),
             total_shrink := some (totalShrinkValue buckets.flatten oracle.vals),
             status := oracle.status, outcome := classifyStatus oracle.status,
             message := some "Global shrink optimization successful." }] } := by
  unfold globalResult
  rw [solveModel_of_feasible _ _ _ _ _ h]

theorem classifyStatus_optimal_iff (s : CpSolverStatus) :
    classifyStatus s = PackingOutcome.OPTIMAL ↔ s = CpSolverStatus.OPTIMAL := by
  cases s <;> decide

theorem classifyStatus_feasible_iff (s : CpSolverStatus) :
    (classifyStatus s = PackingOutcome.OPTIMAL ∨
     classifyStatus s = PackingOutcome.FEASIBLE) ↔ statusFeasible s = true := by
  cases s <;> decide

theorem phase1FailureOutcome_not_success (s : CpSolverStatus) :
    phase1FailureOutcome s ≠ PackingOutcome.OPTIMAL ∧
    phase1FailureOutcome s ≠ PackingOutcome.FEASIBLE := by
  cases s <;> decide

/-! ## C5: per-box mode attempts every box and aggregates -/

/-- **C5.** In per-box mode, every one of the `min_boxes` per-box solves is
attempted regardless of earlier failures (the report has exactly one entry
per box, entry `b` depending only on box `b`'s solve), and the returned
`PackingResult` satisfies: `success = true` iff every box's solve produced a
feasible-or-optimal placement; the overall outcome is `OPTIMAL` iff every
box's outcome is `OPTIMAL`, `FEASIBLE` if all succeeded but not all are
optimal, and `NO_SOLUTION_UNKNOWN` if any box failed; the successful boxes'
placements are present even when the overall result is a failure. -/
theorem solve_per_box_aggregation
    (items : List Item) (bw bh : Int) (es : Bool) (tl : Int)
    (phase1 : Phase1Oracle) (phase2 : Nat → SolveOracle)
    (hval : validateInputs items bw bh tl = none)
    (h1 : statusFeasible phase1.status = true)
    (r : PackingResult)
    (hr : solve_scalable_rectpack items bw bh es true tl phase1 phase2 = Except.ok r) :
    r.packing_results.length = (phase1.maxBoxIdVal + 1).toNat ∧
    (r.success = true ↔
      ∀ b, b < r.packing_results.length → statusFeasible (phase2 b).status = true) ∧
    (r.outcome = PackingOutcome.OPTIMAL ↔
      ∀ e ∈ r.packing_results, e.outcome = PackingOutcome.OPTIMAL) ∧
    (r.success = true ∧ ¬(∀ e ∈ r.packing_results, e.outcome = PackingOutcome.OPTIMAL) →
      r.outcome = PackingOutcome.FEASIBLE) ∧
    (r.success = false → r.outcome = PackingOutcome.NO_SOLUTION_UNKNOWN) ∧
    (∀ b, b < r.packing_results.length →
      (r.packing_results.getD b default).box_id = some (b : Int) ∧
      (r.packing_results.getD b default).packed_items.isSome =
        statusFeasible (phase2 b).status) := by
  rw [solve_eq_perBox _ _ _ _ _ _ _ hval h1] at hr
  injection hr with hr'
  subst hr'
  have hpr := perBoxAggregate_packing_results bw bh phase1.status
    ((phase1.maxBoxIdVal + 1).toNat)
    (perBoxResults (boxToItems items phase1.vals ((phase1.maxBoxIdVal + 1).toNat))
      bw bh es phase2)
  have hlen : (perBoxResults (boxToItems items phase1.vals
      ((phase1.maxBoxIdVal + 1).toNat)) bw bh es phase2).length =
      (phase1.maxBoxIdVal + 1).toNat := by
    rw [perBoxResults_length, boxToItems_length]
  have hsucc := perBoxAggregate_success bw bh phase1.status
    ((phase1.maxBoxIdVal + 1).toNat)
    (perBoxResults (boxToItems items phase1.vals ((phase1.maxBoxIdVal + 1).toNat))
      bw bh es phase2)
  have hentry : ∀ b, (hb : b < (perBoxResults (boxToItems items phase1.vals
      ((phase1.maxBoxIdVal + 1).toNat)) bw bh es phase2).length) →
      (perBoxResults (boxToItems items phase1.vals ((phase1.maxBoxIdVal + 1).toNat))
        bw bh es phase2)[b] =
      mkPerBoxEntry ((boxToItems items phase1.vals
        ((phase1.maxBoxIdVal + 1).toNat)).getD b []) b bw bh es (phase2 b) :=
    fun b hb => perBoxResults_getElem _ _ _ _ _ b hb
  have hall_isSome : ((perBoxResults (boxToItems items phase1.vals
      ((phase1.maxBoxIdVal + 1).toNat)) bw bh es phase2).all
        fun e => e.packed_items.isSome) = true ↔
      ∀ b, b < (perBoxResults (boxToItems items phase1.vals
        ((phase1.maxBoxIdVal + 1).toNat)) bw bh es phase2).length →
        statusFeasible (phase2 b).status = true := by
    rw [List.all_eq_true]
    constructor
    · intro h b hb
      have := h _ (List.getElem_mem hb)
      rw [hentry b hb, mkPerBoxEntry_isSome] at this
      exact this
    · intro h e he
      obtain ⟨b, hb, rfl⟩ := List.mem_iff_getElem.mp he
      rw [hentry b hb, mkPerBoxEntry_isSome]
      exact h b hb
  refine ⟨?_, ?_, ?_, ?_, ?_, ?_⟩
  · rw [hpr, hlen]
  · rw [hpr, hsucc, hall_isSome]
  · rw [hpr]
    cases hall : ((perBoxResults (boxToItems items phase1.vals
        ((phase1.maxBoxIdVal + 1).toNat)) bw bh es phase2).all
          fun e => e.packed_items.isSome) with
    | true =>
      rw [perBoxAggregate_outcome_ok _ _ _ _ _ hall]
      constructor
      · intro hopt e he
        obtain ⟨b, hb, rfl⟩ := List.mem_iff_getElem.mp he
        rw [hentry b hb, mkPerBoxEntry_outcome]
        split at hopt
        case isTrue hao =>
          have := List.all_eq_true.mp hao _ (List.getElem_mem hb)
          rw [hentry b hb, mkPerBoxEntry_outcome] at this
          exact eq_of_beq this
        case isFalse => cases hopt
      · intro hall_opt
        rw [if_pos]
        apply List.all_eq_true.mpr
        intro e he
        have := hall_opt e he
        simp [this]
    | false =>
      rw [perBoxAggregate_outcome_failed _ _ _ _ _ hall]
      constructor
      · intro h
        cases h
      · intro hall_opt
        exfalso
        have hex : ∃ b, ∃ (hb : b < (perBoxResults (boxToItems items phase1.vals
            ((phase1.maxBoxIdVal + 1).toNat)) bw bh es phase2).length),
            statusFeasible (phase2 b).status = false := by
          by_contra hno
          push_neg at hno
          have : ∀ b, b < (perBoxResults (boxToItems items phase1.vals
              ((phase1.maxBoxIdVal + 1).toNat)) bw bh es phase2).length →
              statusFeasible (phase2 b).status = true := by
            intro b hb
            have := hno b hb
            revert this
            cases statusFeasible (phase2 b).status <;> simp
          rw [hall_isSome.mpr this] at hall
          cases hall
        obtain ⟨b, hb, hfail⟩ := hex
        have := hall_opt _ (List.getElem_mem hb)
        rw [hentry b hb, mkPerBoxEntry_outcome, classifyStatus_optimal_iff] at this
        rw [this] at hfail
        cases hfail
  · rw [hpr]
    intro ⟨hs, hnopt⟩
    rw [hsucc] at hs
    rw [perBoxAggregate_outcome_ok _ _ _ _ _ hs]
    rw [if_neg]
    intro hao
    apply hnopt
    intro e he
    have := List.all_eq_true.mp hao e he
    exact eq_of_beq this
  · intro hs
    rw [hsucc] at hs
    rw [perBoxAggregate_outcome_failed _ _ _ _ _ hs]
  · rw [hpr]
    intro b hb
    rw [List.getD_eq_getElem _ _ hb, hentry b hb]
    exact ⟨mkPerBoxEntry_box_id_eq _ _ _ _ _ _, mkPerBoxEntry_isSome _ _ _ _ _ _⟩

/-- Two 2x2 items, Phase 1 assigning them to boxes 0 and 1. -/
def itemsB : List Item := [⟨1, 2, 2, 1, 1⟩, ⟨2, 2, 2, 1, 1⟩]

def valsB : List ItemVals := [⟨0, 0, 0, 2, 2, 0⟩, ⟨1, 0, 0, 2, 2, 0⟩]

def phase1B : Phase1Oracle := ⟨CpSolverStatus.OPTIMAL, valsB, 1⟩

/-- A Phase-2 oracle family where box 0 succeeds and box 1 is infeasible. -/
def phase2B : Nat → SolveOracle := fun b =>
  if b = 0 then ⟨CpSolverStatus.OPTIMAL, [⟨0, 0, 0, 2, 2, 0⟩]⟩
  else ⟨CpSolverStatus.INFEASIBLE, []⟩

theorem solve_per_box_aggregation_witness :
    validateInputs itemsB 10 10 1 = none ∧
    statusFeasible phase1B.status = true ∧
    (resultOf (solve_scalable_rectpack itemsB 10 10 false true 1 phase1B
      phase2B)).packing_results.length = (phase1B.maxBoxIdVal + 1).toNat :=
  ⟨by decide, by decide,
   (solve_per_box_aggregation itemsB 10 10 false 1 phase1B phase2B (by decide) (by decide)
      (resultOf (solve_scalable_rectpack itemsB 10 10 false true 1 phase1B phase2B))
      rfl).1⟩

/-! ## C10: success characterisation -/

/-- **C10** counterexample: when Phase 1 fails, `packing_results` is empty, so
"every entry carries a non-None `packed_items`" holds vacuously while
`success` is `false` — the claimed equivalence is violated. -/
theorem success_iff_entries_counterexample :
    ¬((resultOf (solve_scalable_rectpack itemsA 10 10 false false 1
        ⟨CpSolverStatus.INFEASIBLE, [], 0⟩ phase2A)).success = true ↔
      ∀ e ∈ (resultOf (solve_scalable_rectpack itemsA 10 10 false false 1
        ⟨CpSolverStatus.INFEASIBLE, [], 0⟩ phase2A)).packing_results,
        e.packed_items.isSome = true) := by
  decide

/-- **C10** (amended). For every `PackingResult` returned by the solve on
valid input (with the Phase-1 `max_box_id` value within its declared bounds):
`success` is true iff the outcome is `OPTIMAL` or `FEASIBLE`; and `success`
is true iff `packing_results` is non-empty and every entry carries a non-None
`packed_items` list.  (On a Phase-1 failure the list is empty, so the second
equivalence needs the non-emptiness conjunct the original claim lacked.) -/
theorem solve_success_characterisation
    (items : List Item) (bw bh : Int) (es pb : Bool) (tl : Int)
    (phase1 : Phase1Oracle) (phase2 : Nat → SolveOracle)
    (hval : validateInputs items bw bh tl = none)
    (hm : 0 ≤ phase1.maxBoxIdVal)
    (r : PackingResult)
    (hr : solve_scalable_rectpack items bw bh es pb tl phase1 phase2 = Except.ok r) :
    (r.success = true ↔
      (r.outcome = PackingOutcome.OPTIMAL ∨ r.outcome = PackingOutcome.FEASIBLE)) ∧
    (r.success = true ↔
      (r.packing_results ≠ [] ∧
       ∀ e ∈ r.packing_results, e.packed_items.isSome = true)) := by
  cases h1 : statusFeasible phase1.status with
  | false =>
    rw [solve_eq_phase1_failure _ _ _ _ _ _ _ _ hval h1] at hr
    injection hr with hr'
    subst hr'
    constructor
    · constructor
      · intro h
        cases h
      · intro h
        rcases h with h | h
        · exact absurd h (phase1FailureOutcome_not_success _).1
        · exact absurd h (phase1FailureOutcome_not_success _).2
    · constructor
      · intro h
        cases h
      · intro ⟨hne, _⟩
        exact absurd rfl hne
  | true =>
    cases pb with
    | false =>
      rw [solve_eq_global _ _ _ _ _ _ _ hval h1] at hr
      injection hr with hr'
      subst hr'
      cases h2 : statusFeasible (phase2 0).status with
      | false =>
        rw [globalResult_of_failed _ _ _ _ _ _ _ h2]
        constructor
        · constructor
          · intro h
            cases h
          · intro h
            have := (classifyStatus_feasible_iff (phase2 0).status).mp h
            rw [this] at h2
            cases h2
        · constructor
          · intro h
            cases h
          · intro ⟨_, hall⟩
            simp at hall
      | true =>
        rw [globalResult_of_feasible _ _ _ _ _ _ _ h2]
        constructor
        · constructor
          · intro _
            exact (classifyStatus_feasible_iff (phase2 0).status).mpr h2
          · intro _
            rfl
        · constructor
          · intro _
            refine ⟨by simp, ?_⟩
            intro e he
            simp at he
            rw [he]
            rfl
          · intro _
            rfl
    | true =>
      rw [solve_eq_perBox _ _ _ _ _ _ _ hval h1] at hr
      injection hr with hr'
      subst hr'
      have hpr := perBoxAggregate_packing_results bw bh phase1.status
        ((phase1.maxBoxIdVal + 1).toNat)
        (perBoxResults (boxToItems items phase1.vals ((phase1.maxBoxIdVal + 1).toNat))
          bw bh es phase2)
      have hsucc := perBoxAggregate_success bw bh phase1.status
        ((phase1.maxBoxIdVal + 1).toNat)
        (perBoxResults (boxToItems items phase1.vals ((phase1.maxBoxIdVal + 1).toNat))
          bw bh es phase2)
      have hlen : (perBoxResults (boxToItems items phase1.vals
          ((phase1.maxBoxIdVal + 1).toNat)) bw bh es phase2).length =
          (phase1.maxBoxIdVal + 1).toNat := by
        rw [perBoxResults_length, boxToItems_length]
      have hne : (perBoxResults (boxToItems items phase1.vals
          ((phase1.maxBoxIdVal + 1).toNat)) bw bh es phase2) ≠ [] := by
        intro hnil
        rw [hnil] at hlen
        simp at hlen
        omega
      constructor
      · rw [hsucc]
        cases hall : ((perBoxResults (boxToItems items phase1.vals
            ((phase1.maxBoxIdVal + 1).toNat)) bw bh es phase2).all
              fun e => e.packed_items.isSome) with
        | true =>
          rw [perBoxAggregate_outcome_ok _ _ _ _ _ hall]
          constructor
          · intro _
            split
            · exact Or.inl rfl
            · exact Or.inr rfl
          · intro _
            rfl
        | false =>
          rw [perBoxAggregate_outcome_failed _ _ _ _ _ hall]
          constructor
          · intro h
            cases h
          · intro h
            rcases h with h | h <;> cases h
      · rw [hsucc, hpr, List.all_eq_true]
        constructor
        · intro h
          exact ⟨hne, h⟩
        · intro ⟨_, h⟩
          exact h

theorem solve_success_characterisation_witness :
    validateInputs itemsA 10 10 1 = none ∧
    0 ≤ phase1A.maxBoxIdVal ∧
    ((resultOf (solve_scalable_rectpack itemsA 10 10 false false 1 phase1A
        phase2A)).success = true ↔
      ((resultOf (solve_scalable_rectpack itemsA 10 10 false false 1 phase1A
          phase2A)).outcome = PackingOutcome.OPTIMAL ∨
       (resultOf (solve_scalable_rectpack itemsA 10 10 false false 1 phase1A
          phase2A)).outcome = PackingOutcome.FEASIBLE)) :=
  ⟨by decide, by decide,
   (solve_success_characterisation itemsA 10 10 false false 1 phase1A phase2A
      (by decide) (by decide)
      (resultOf (solve_scalable_rectpack itemsA 10 10 false false 1 phase1A phase2A))
      rfl).1⟩

/-! ## C9: equal shrink is a restriction of independent shrink -/

/-- The equal-shrink model only adds constraints: any assignment satisfying it
also satisfies the independent-shrink model. -/
theorem modelSat_equal_imp_indep (items : List Item) (box : Box) (mb : Int)
    (vals : List ItemVals) (bools : Nat → Nat → PairBools)
    (h : ModelSat items box mb true vals bools) :
    ModelSat items box mb false vals bools := by
  obtain ⟨⟨hlen, hitems⟩, hpairs⟩ := h
  refine ⟨⟨hlen, ?_⟩, hpairs⟩
  intro k hk
  obtain ⟨h1, h2, h3, h4, h5, h6, h7, h8, h9, h10, _, h12, h13⟩ := hitems k hk
  exact ⟨h1, h2, h3, h4, h5, h6, h7, h8, h9, h10, fun hf => absurd hf Bool.false_ne_true, h12, h13⟩

/-- Under the declared size bounds the total shrink of any assignment is
non-negative. -/
theorem totalShrink_nonneg (items : List Item) (box : Box) (mb : Int) (es : Bool)
    (vals : List ItemVals) (h : ItemsSat items box mb es vals) :
    0 ≤ totalShrinkValue items vals := by
  obtain ⟨hlen, hitems⟩ := h
  unfold totalShrinkValue
  apply List.sum_nonneg
  intro x hx
  obtain ⟨p, hp, rfl⟩ := List.mem_map.mp hx
  obtain ⟨k, hk, hpk⟩ := List.mem_iff_getElem.mp hp
  rw [List.length_zip] at hk
  have hki : k < items.length := by omega
  have hkv : k < vals.length := by omega
  have hs := hitems k hkv
  rw [List.getD_eq_getElem vals default hkv, List.getD_eq_getElem items default hki] at hs
  obtain ⟨_, _, _, _, _, _, _, h8, _, h10, _, _, _⟩ := hs
  rw [← hpk, List.getElem_zip]
  simp only []
  omega

/-- Two 10x6 items whose width cannot shrink (minimum 10x5): in a 10x10 box
they coexist only by shrinking both heights to 5, and under equal shrink the
shrink variable is pinned to 0 so they cannot coexist at all. -/
def itemsD : List Item := [⟨1, 10, 6, 10, 5⟩, ⟨2, 10, 6, 10, 5⟩]

/-- Independent-shrink solution: both items in box 0, stacked vertically with
heights shrunk to 5 (total shrink 2). -/
def valsD_I : List ItemVals := [⟨0, 0, 0, 10, 5, 0⟩, ⟨0, 0, 5, 10, 5, 0⟩]

def boolsD_I : Nat → Nat → PairBools := fun _ _ => ⟨false, false, false, true, false⟩

def phase1D_I : Phase1Oracle := ⟨CpSolverStatus.OPTIMAL, valsD_I, 0⟩

def phase2D_I : Nat → SolveOracle := fun _ => ⟨CpSolverStatus.OPTIMAL, valsD_I⟩

/-- Equal-shrink solution: shrink 0, one unshrunk item per box
(total shrink 0 over two boxes). -/
def valsD_E : List ItemVals := [⟨0, 0, 0, 10, 6, 0⟩, ⟨1, 0, 0, 10, 6, 0⟩]

def phase1D_E : Phase1Oracle := ⟨CpSolverStatus.OPTIMAL, valsD_E, 1⟩

def phase2D_E : Nat → SolveOracle := fun _ => ⟨CpSolverStatus.OPTIMAL, valsD_E⟩

/-- In the capacity-1 independent-shrink model for the two 10x6/min-10x5
items in a 10x10 box, every constraint-satisfying pair of placements shrinks
by at least 2 in total: widths are pinned to 10, so horizontal separation is
impossible and the two heights must fit in the box. -/
theorem stacked_pair_min_shrink (v0 v1 : ItemVals) (b : PairBools)
    (h0 : itemVarsSat ⟨1, 10, 6, 10, 5⟩ 1 boxA false v0)
    (h1 : itemVarsSat ⟨2, 10, 6, 10, 5⟩ 1 boxA false v1)
    (hp : pairSat v0 v1 b) :
    2 ≤ (10 - v0.w) + (6 - v0.h) + ((10 - v1.w) + (6 - v1.h)) := by
  obtain ⟨hb0a, hb0b, hx0a, hx0b, hy0a, hy0b, hw0a, hw0b, hh0a, hh0b, _, hxw0, hyh0⟩ := h0
  obtain ⟨hb1a, hb1b, hx1a, hx1b, hy1a, hy1b, hw1a, hw1b, hh1a, hh1b, _, hxw1, hyh1⟩ := h1
  have w0a : (10 : Int) ≤ v0.w := hw0a
  have w0b : v0.w ≤ 10 := hw0b
  have w1a : (10 : Int) ≤ v1.w := hw1a
  have w1b : v1.w ≤ 10 := hw1b
  have e0a : (5 : Int) ≤ v0.h := hh0a
  have e0b : v0.h ≤ 6 := hh0b
  have e1a : (5 : Int) ≤ v1.h := hh1a
  have e1b : v1.h ≤ 6 := hh1b
  have x0a : (0 : Int) ≤ v0.x := hx0a
  have x1a : (0 : Int) ≤ v1.x := hx1a
  have y0a : (0 : Int) ≤ v0.y := hy0a
  have y1a : (0 : Int) ≤ v1.y := hy1a
  have xw0 : v0.x + v0.w ≤ 10 := hxw0
  have xw1 : v1.x + v1.w ≤ 10 := hxw1
  have yh0 : v0.y + v0.h ≤ 10 := hyh0
  have yh1 : v1.y + v1.h ≤ 10 := hyh1
  have b0a : (0 : Int) ≤ v0.box_id := hb0a
  have b0b : v0.box_id ≤ 1 - 1 := hb0b
  have b1a : (0 : Int) ≤ v1.box_id := hb1a
  have b1b : v1.box_id ≤ 1 - 1 := hb1b
  obtain ⟨p1, p2, p3, p4, p5, p6, p7⟩ := hp
  rcases p7 with hL | hR | hA | hB | hD
  · have := p3 hL
    omega
  · have := p4 hR
    omega
  · have := p6 hA
    omega
  · have := p5 hB
    omega
  · have := p1 hD
    omega

/-- Any assignment satisfying the capacity-1 independent-shrink model for
`itemsD` has total shrink at least 2. -/
theorem itemsD_indep_min_shrink (vals : List ItemVals) (bools : Nat → Nat → PairBools)
    (h : ModelSat itemsD boxA 1 false vals bools) :
    2 ≤ totalShrinkValue itemsD vals := by
  obtain ⟨⟨hlen, hitems⟩, hpairs⟩ := h
  rcases vals with _ | ⟨v0, _ | ⟨v1, _ | ⟨v2, rest⟩⟩⟩
  · simp [itemsD] at hlen
  · simp [itemsD] at hlen
  · have h0 : itemVarsSat ⟨1, 10, 6, 10, 5⟩ 1 boxA false v0 := hitems 0 (by simp)
    have h1 : itemVarsSat ⟨2, 10, 6, 10, 5⟩ 1 boxA false v1 := hitems 1 (by simp)
    have hp : pairSat v0 v1 (bools 0 1) := hpairs 0 (by simp) 1 (by simp) (by decide)
    have hmin := stacked_pair_min_shrink v0 v1 (bools 0 1) h0 h1 hp
    have hts : totalShrinkValue itemsD [v0, v1] =
        (10 - v0.w) + (6 - v0.h) + ((10 - v1.w) + (6 - v1.h)) := by
      simp [totalShrinkValue, itemsD]
    rw [hts]
    exact hmin
  · simp [itemsD] at hlen

/-- Under equal shrink the two `itemsD` items cannot share a box (the shrink
variable is pinned to 0, so both stay 10x6), hence every Phase-1 assignment
satisfying the equal-shrink model uses `max_box_id ≥ 1`, i.e. two boxes. -/
theorem itemsD_equal_needs_two_boxes (vals : List ItemVals)
    (bools : Nat → Nat → PairBools) (m : Int)
    (h : ModelSat itemsD boxA (itemsD.length : Int) true vals bools)
    (hobj : Phase1ObjectiveSat itemsD.length vals m) :
    1 ≤ m := by
  obtain ⟨⟨hlen, hitems⟩, hpairs⟩ := h
  rcases vals with _ | ⟨v0, _ | ⟨v1, _ | ⟨v2, rest⟩⟩⟩
  · simp [itemsD] at hlen
  · simp [itemsD] at hlen
  · have h0 : itemVarsSat ⟨1, 10, 6, 10, 5⟩ (itemsD.length : Int) boxA true v0 :=
      hitems 0 (by simp)
    have h1 : itemVarsSat ⟨2, 10, 6, 10, 5⟩ (itemsD.length : Int) boxA true v1 :=
      hitems 1 (by simp)
    have hp : pairSat v0 v1 (bools 0 1) := hpairs 0 (by simp) 1 (by simp) (by decide)
    obtain ⟨hb0a, hb0b, hx0a, hx0b, hy0a, hy0b, hw0a, hw0b, hh0a, hh0b, heq0, hxw0, hyh0⟩ := h0
    obtain ⟨hb1a, hb1b, hx1a, hx1b, hy1a, hy1b, hw1a, hw1b, hh1a, hh1b, heq1, hxw1, hyh1⟩ := h1
    obtain ⟨hs0a, hs0b, hsw0, hsh0⟩ := heq0 rfl
    obtain ⟨hs1a, hs1b, hsw1, hsh1⟩ := heq1 rfl
    have s0a : (0 : Int) ≤ v0.shrink := hs0a
    have s0b : v0.shrink ≤ min (10 - 10 : Int) (6 - 5) := hs0b
    have s1a : (0 : Int) ≤ v1.shrink := hs1a
    have s1b : v1.shrink ≤ min (10 - 10 : Int) (6 - 5) := hs1b
    have eh0 : v0.h = 6 - v0.shrink := hsh0
    have eh1 : v1.h = 6 - v1.shrink := hsh1
    have w0a : (10 : Int) ≤ v0.w := hw0a
    have w1a : (10 : Int) ≤ v1.w := hw1a
    have x0a : (0 : Int) ≤ v0.x := hx0a
    have x1a : (0 : Int) ≤ v1.x := hx1a
    have y0a : (0 : Int) ≤ v0.y := hy0a
    have y1a : (0 : Int) ≤ v1.y := hy1a
    have xw0 : v0.x + v0.w ≤ 10 := hxw0
    have xw1 : v1.x + v1.w ≤ 10 := hxw1
    have yh0 : v0.y + v0.h ≤ 10 := hyh0
    have yh1 : v1.y + v1.h ≤ 10 := hyh1
    have b0a : (0 : Int) ≤ v0.box_id := hb0a
    have b0b : v0.box_id ≤ 2 - 1 := hb0b
    have b1a : (0 : Int) ≤ v1.box_id := hb1a
    have b1b : v1.box_id ≤ 2 - 1 := hb1b
    obtain ⟨p1, p2, p3, p4, p5, p6, p7⟩ := hp
    have hdiff : v0.box_id ≠ v1.box_id := by
      rcases p7 with hL | hR | hA | hB | hD
      · have := p3 hL
        omega
      · have := p4 hR
        omega
      · have := p6 hA
        omega
      · have := p5 hB
        omega
      · exact p1 hD
    have m0 : v0.box_id ≤ m := hobj.2.2 v0 (by simp)
    have m1 : v1.box_id ≤ m := hobj.2.2 v1 (by simp)
    omega
  · simp [itemsD] at hlen

/-- **C9** counterexample: on the fixed instance `itemsD` in a 10x10 box
(global mode, proven-optimal termination of every solve in both runs), the
full independent-shrink run returns total shrink 2 while the full
equal-shrink run returns total shrink 0: enabling `equal_shrink` also changes
Phase 1's minimum box count (1 box vs 2 boxes), and with the extra box the
equal-shrink run shrinks strictly less.  The conjuncts establish that every
oracle response used is feasible and optimal for its model, that the two
`solve_scalable_rectpack` runs return total shrinks 2 and 0, and that the
claimed inequality `equal ≥ independent` fails. -/
theorem equal_shrink_monotonicity_counterexample :
    (∀ vals bools m, ModelSat itemsD boxA (itemsD.length : Int) false vals bools →
      Phase1ObjectiveSat itemsD.length vals m → 0 ≤ m) ∧
    ModelSat itemsD boxA (itemsD.length : Int) false valsD_I boolsD_I ∧
    Phase1ObjectiveSat itemsD.length valsD_I 0 ∧
    ModelSat itemsD boxA 1 false valsD_I boolsD_I ∧
    (∀ vals bools, ModelSat itemsD boxA 1 false vals bools →
      totalShrinkValue itemsD valsD_I ≤ totalShrinkValue itemsD vals) ∧
    (∀ vals bools m, ModelSat itemsD boxA (itemsD.length : Int) true vals bools →
      Phase1ObjectiveSat itemsD.length vals m → 1 ≤ m) ∧
    ModelSat itemsD boxA (itemsD.length : Int) true valsD_E boolsA ∧
    Phase1ObjectiveSat itemsD.length valsD_E 1 ∧
    ModelSat itemsD boxA 2 true valsD_E boolsA ∧
    (∀ vals bools, ModelSat itemsD boxA 2 true vals bools →
      totalShrinkValue itemsD valsD_E ≤ totalShrinkValue itemsD vals) ∧
    ((resultOf (solve_scalable_rectpack itemsD 10 10 false false 1 phase1D_I
        phase2D_I)).packing_results.getD 0 default).total_shrink = some 2 ∧
    ((resultOf (solve_scalable_rectpack itemsD 10 10 true false 1 phase1D_E
        phase2D_E)).packing_results.getD 0 default).total_shrink = some 0 ∧
    ¬((2 : Int) ≤ 0) :=
  ⟨fun _ _ _ _ hobj => hobj.1,
   by decide, by decide, by decide,
   fun vals bools h =>
     le_trans (show totalShrinkValue itemsD valsD_I ≤ 2 by decide)
       (itemsD_indep_min_shrink vals bools h),
   fun vals bools m h hobj => itemsD_equal_needs_two_boxes vals bools m h hobj,
   by decide, by decide, by decide,
   fun vals bools h =>
     le_trans (show totalShrinkValue itemsD valsD_E ≤ 0 by decide)
       (totalShrink_nonneg itemsD boxA 2 true vals h.1),
   by decide, by decide, by decide⟩

/-- **C9** (amended). The monotonicity holds for a fixed constraint model —
same items, same box, and the same box capacity: the equal-shrink model's
feasible set is a restriction of the independent-shrink model's, so a
shrink-minimal independent solution shrinks no more than any (in particular
any optimal) equal-shrink solution, and the total shrinks extracted by
`solveModel` compare accordingly.  Across two full solve runs the original
claim fails, because `equal_shrink` also changes Phase 1's minimum box count:
with more boxes available the equal-shrink run can return strictly less total
shrink (see the counterexample). -/
theorem equal_shrink_total_shrink_monotone
    (items : List Item) (box : Box) (mb : Int) (oE oI : SolveOracle)
    (boolsE boolsI : Nat → Nat → PairBools)
    (hsE : statusFeasible oE.status = true)
    (hsI : statusFeasible oI.status = true)
    (hE : ModelSat items box mb true oE.vals boolsE)
    (hI : ModelSat items box mb false oI.vals boolsI)
    (hIopt : ∀ vals bools, ModelSat items box mb false vals bools →
      totalShrinkValue items oI.vals ≤ totalShrinkValue items vals) :
    (solveModel items box mb true oE).2.2 = some (totalShrinkValue items oE.vals) ∧
    (solveModel items box mb false oI).2.2 = some (totalShrinkValue items oI.vals) ∧
    totalShrinkValue items oI.vals ≤ totalShrinkValue items oE.vals := by
  refine ⟨?_, ?_, ?_⟩
  · rw [solveModel_of_feasible _ _ _ _ _ hsE]
  · rw [solveModel_of_feasible _ _ _ _ _ hsI]
  · exact hIopt oE.vals boolsE (modelSat_equal_imp_indep _ _ _ _ _ hE)

/-- A 4x6 item shrinkable to 2x2 in a 3x6 box: independently only the width
must shrink (total 1), while equal shrink drags the height down with it
(total 2). -/
def itemsE : List Item := [⟨1, 4, 6, 2, 2⟩]

def boxE : Box := ⟨0, 3, 6⟩

def oE_E : SolveOracle := ⟨CpSolverStatus.OPTIMAL, [⟨0, 0, 0, 3, 5, 1⟩]⟩

def oI_E : SolveOracle := ⟨CpSolverStatus.OPTIMAL, [⟨0, 0, 0, 3, 6, 0⟩]⟩

/-- Any assignment satisfying the capacity-1 independent-shrink model for
`itemsE` shrinks by at least 1 (the width must come down to 3). -/
theorem itemsE_indep_min_shrink (vals : List ItemVals) (bools : Nat → Nat → PairBools)
    (h : ModelSat itemsE boxE 1 false vals bools) :
    1 ≤ totalShrinkValue itemsE vals := by
  obtain ⟨⟨hlen, hitems⟩, _⟩ := h
  rcases vals with _ | ⟨v0, _ | ⟨v1, rest⟩⟩
  · simp [itemsE] at hlen
  · have h0 : itemVarsSat ⟨1, 4, 6, 2, 2⟩ 1 boxE false v0 := hitems 0 (by simp)
    obtain ⟨_, _, hx0a, _, _, _, _, hw0b, _, hh0b, _, hxw0, _⟩ := h0
    have w0b : v0.w ≤ 4 := hw0b
    have e0b : v0.h ≤ 6 := hh0b
    have x0a : (0 : Int) ≤ v0.x := hx0a
    have xw0 : v0.x + v0.w ≤ 3 := hxw0
    have hts : totalShrinkValue itemsE [v0] = (4 - v0.w) + (6 - v0.h) := by
      simp [totalShrinkValue, itemsE]
    rw [hts]
    omega
  · simp [itemsE] at hlen

theorem equal_shrink_total_shrink_monotone_witness :
    ModelSat itemsE boxE 1 true oE_E.vals boolsA ∧
    ModelSat itemsE boxE 1 false oI_E.vals boolsA ∧
    ((solveModel itemsE boxE 1 true oE_E).2.2 =
       some (totalShrinkValue itemsE oE_E.vals) ∧
     (solveModel itemsE boxE 1 false oI_E).2.2 =
       some (totalShrinkValue itemsE oI_E.vals) ∧
     totalShrinkValue itemsE oI_E.vals ≤ totalShrinkValue itemsE oE_E.vals) :=
  ⟨by decide, by decide,
   equal_shrink_total_shrink_monotone itemsE boxE 1 oE_E oI_E boolsA boolsA
     (by decide) (by decide) (by decide) (by decide)
     (fun vals bools h =>
       le_trans (show totalShrinkValue itemsE oI_E.vals ≤ 1 by decide)
         (itemsE_indep_min_shrink vals bools h))⟩

/-! ## C8: the Phase-1 partition -/

/-- Box-id relabelling used to show optimal Phase-1 solutions leave no gap:
every box id above the unused id `g` shifts down by one. -/
def relabel (g : Int) (v : ItemVals) : ItemVals :=
  ⟨if g < v.box_id then v.box_id - 1 else v.box_id, v.x, v.y, v.w, v.h, v.shrink⟩

theorem relabel_box_id_inj (g a c : Int) (ha : a ≠ g) (hc : c ≠ g) :
    ((if g < a then a - 1 else a) = (if g < c then c - 1 else c)) ↔ a = c := by
  split_ifs <;> omega

theorem pairSat_relabel (g : Int) (vi vj : ItemVals) (b : PairBools)
    (hig : vi.box_id ≠ g) (hjg : vj.box_id ≠ g) (h : pairSat vi vj b) :
    pairSat (relabel g vi) (relabel g vj) b := by
  obtain ⟨h1, h2, h3, h4, h5, h6, h7⟩ := h
  refine ⟨?_, ?_, h3, h4, h5, h6, h7⟩
  · intro hb
    show (if g < vi.box_id then vi.box_id - 1 else vi.box_id) ≠
      (if g < vj.box_id then vj.box_id - 1 else vj.box_id)
    rw [Ne, relabel_box_id_inj g _ _ hig hjg]
    exact h1 hb
  · intro hb
    show (if g < vi.box_id then vi.box_id - 1 else vi.box_id) =
      (if g < vj.box_id then vj.box_id - 1 else vj.box_id)
    rw [relabel_box_id_inj g _ _ hig hjg]
    exact h2 hb

theorem itemVarsSat_relabel (item : Item) (n : Int) (box : Box) (es : Bool)
    (g : Int) (v : ItemVals) (hg0 : 0 ≤ g) (hvg : v.box_id ≠ g)
    (h : itemVarsSat item n box es v) :
    itemVarsSat item n box es (relabel g v) := by
  obtain ⟨h1, h2, h3, h4, h5, h6, h7, h8, h9, h10, h11, h12, h13⟩ := h
  refine ⟨?_, ?_, h3, h4, h5, h6, h7, h8, h9, h10, h11, h12, h13⟩
  · show 0 ≤ if g < v.box_id then v.box_id - 1 else v.box_id
    split_ifs <;> omega
  · show (if g < v.box_id then v.box_id - 1 else v.box_id) ≤ n - 1
    split_ifs <;> omega

theorem modelSat_relabel (items : List Item) (box : Box) (es : Bool)
    (g : Int) (vals : List ItemVals) (bools : Nat → Nat → PairBools)
    (hg0 : 0 ≤ g)
    (hnomem : ∀ v ∈ vals, v.box_id ≠ g)
    (h : ModelSat items box (items.length : Int) es vals bools) :
    ModelSat items box (items.length : Int) es (vals.map (relabel g)) bools := by
  obtain ⟨⟨hlen, hitems⟩, hpairs⟩ := h
  refine ⟨⟨by rw [List.length_map]; exact hlen, ?_⟩, ?_⟩
  · intro k hk
    have hkv : k < vals.length := by rw [List.length_map] at hk; exact hk
    rw [List.getD_eq_getElem (vals.map (relabel g)) default hk, List.getElem_map]
    have hs := hitems k hkv
    rw [List.getD_eq_getElem vals default hkv] at hs
    exact itemVarsSat_relabel _ _ _ _ g _ hg0 (hnomem _ (List.getElem_mem hkv)) hs
  · intro i hi j hj hij
    have hiv : i < vals.length := by rw [List.length_map] at hi; exact hi
    have hjv : j < vals.length := by rw [List.length_map] at hj; exact hj
    rw [List.getD_eq_getElem (vals.map (relabel g)) default hi,
      List.getD_eq_getElem (vals.map (relabel g)) default hj,
      List.getElem_map, List.getElem_map]
    have hp := hpairs i hiv j hjv hij
    rw [List.getD_eq_getElem vals default hiv, List.getD_eq_getElem vals default hjv] at hp
    exact pairSat_relabel g _ _ _ (hnomem _ (List.getElem_mem hiv))
      (hnomem _ (List.getElem_mem hjv)) hp

theorem phase1Obj_relabel (n : Nat) (g m : Int) (vals : List ItemVals)
    (hgm : g ≤ m) (hm1 : 1 ≤ m)
    (hnomem : ∀ v ∈ vals, v.box_id ≠ g)
    (hobj : Phase1ObjectiveSat n vals m) :
    Phase1ObjectiveSat n (vals.map (relabel g)) (m - 1) := by
  obtain ⟨h0, hn, hv⟩ := hobj
  refine ⟨by omega, by omega, ?_⟩
  intro v' hv'
  obtain ⟨v, hv2, rfl⟩ := List.mem_map.mp hv'
  have hvm := hv v hv2
  have hne := hnomem v hv2
  show (if g < v.box_id then v.box_id - 1 else v.box_id) ≤ m - 1
  split_ifs <;> omega

/-- Three 1x1 items: a merely FEASIBLE Phase-1 assignment can use boxes 0 and
2 only, skipping box 1. -/
def itemsC : List Item := [⟨1, 1, 1, 1, 1⟩, ⟨2, 1, 1, 1, 1⟩, ⟨3, 1, 1, 1, 1⟩]

def valsC : List ItemVals :=
  [⟨0, 0, 0, 1, 1, 0⟩, ⟨0, 1, 0, 1, 1, 0⟩, ⟨2, 0, 0, 1, 1, 0⟩]

def boolsC : Nat → Nat → PairBools := fun i j =>
  if i = 0 ∧ j = 1 then ⟨true, false, false, false, false⟩
  else ⟨false, false, false, false, true⟩

/-- **C8** counterexample: a Phase-1 solution with the merely-FEASIBLE status
can satisfy every Phase-1 constraint while using non-contiguous box ids
(0, 0, 2 with `max_box_id = 2`), so group 1 of the resulting partition is
empty — refuting the claim for the "or feasible" case. -/
theorem phase1_partition_empty_group_counterexample :
    statusFeasible CpSolverStatus.FEASIBLE = true ∧
    ModelSat itemsC boxA (itemsC.length : Int) false valsC boolsC ∧
    Phase1ObjectiveSat itemsC.length valsC 2 ∧
    (boxToItems itemsC valsC ((2 : Int) + 1).toNat).getD 1 [] = [] := by
  decide

/-- **C8** (amended). The partition is a deterministic function of the
Phase-1 assignment and always produces exactly `min_boxes` groups indexed
`0..min_boxes-1`.  When the Phase-1 solution is proven optimal — its
`max_box_id` value is minimal among all assignments satisfying the Phase-1
model — the used box ids are contiguous `0..min_boxes-1` and no group is
empty.  (A merely FEASIBLE solution can leave a group empty, see the
counterexample.) -/
theorem phase1_optimal_partition
    (items : List Item) (box : Box) (es : Bool) (vals : List ItemVals)
    (bools : Nat → Nat → PairBools) (m : Int)
    (hne : vals ≠ [])
    (hsat : ModelSat items box (items.length : Int) es vals bools)
    (hobj : Phase1ObjectiveSat items.length vals m)
    (hopt : ∀ vals' bools' m',
      ModelSat items box (items.length : Int) es vals' bools' →
      Phase1ObjectiveSat items.length vals' m' → m ≤ m') :
    (boxToItems items vals (m + 1).toNat).length = (m + 1).toNat ∧
    ∀ k, k < (m + 1).toNat → (boxToItems items vals (m + 1).toNat).getD k [] ≠ [] := by
  have hused : ∀ g : Int, 0 ≤ g → g ≤ m →
      ∃ i, ∃ (hi : i < vals.length), vals[i].box_id = g := by
    intro g hg0 hgm
    by_contra hno
    push_neg at hno
    have hnomem : ∀ v ∈ vals, v.box_id ≠ g := by
      intro v hv
      obtain ⟨i, hi, rfl⟩ := List.mem_iff_getElem.mp hv
      exact hno i hi
    have hm1 : 1 ≤ m := by
      obtain ⟨v0, hv0⟩ := List.exists_mem_of_ne_nil vals hne
      have hb0 := hobj.2.2 v0 hv0
      have hge : 0 ≤ v0.box_id := by
        obtain ⟨i, hi, rfl⟩ := List.mem_iff_getElem.mp hv0
        have hs := hsat.1.2 i hi
        rw [List.getD_eq_getElem vals default hi] at hs
        exact hs.1
      have hne' := hnomem v0 hv0
      omega
    have := hopt (vals.map (relabel g)) bools (m - 1)
      (modelSat_relabel items box es g vals bools hg0 hnomem hsat)
      (phase1Obj_relabel items.length g m vals hgm hm1 hnomem hobj)
    omega
  refine ⟨boxToItems_length _ _ _, ?_⟩
  intro k hk
  have h0m : 0 ≤ m := hobj.1
  have hkm : (k : Int) ≤ m := by omega
  obtain ⟨i, hi, hbox⟩ := hused (k : Int) (by omega) hkm
  intro hempty
  have hblen : k < (boxToItems items vals (m + 1).toNat).length := by
    rw [boxToItems_length]
    exact hk
  rw [List.getD_eq_getElem _ _ hblen] at hempty
  have hbk : (boxToItems items vals (m + 1).toNat)[k] =
      ((items.zip vals).filter fun p => p.2.box_id == (k : Int)).map Prod.fst := by
    unfold boxToItems
    rw [List.getElem_map, List.getElem_range]
  rw [hbk] at hempty
  have hlen := hsat.1.1
  have hii : i < items.length := by omega
  have hiz : i < (items.zip vals).length := by
    rw [List.length_zip]
    omega
  have hzmem : (items[i], vals[i]) ∈ items.zip vals := by
    have hm := List.getElem_mem hiz
    rw [List.getElem_zip] at hm
    exact hm
  have hfil : (items[i], vals[i]) ∈
      (items.zip vals).filter fun p => p.2.box_id == (k : Int) := by
    rw [List.mem_filter]
    exact ⟨hzmem, by simp [hbox]⟩
  have hitem : items[i] ∈
      ((items.zip vals).filter fun p => p.2.box_id == (k : Int)).map Prod.fst :=
    List.mem_map.mpr ⟨(items[i], vals[i]), hfil, rfl⟩
  rw [hempty] at hitem
  cases hitem

theorem phase1_optimal_partition_witness :
    ModelSat itemsA boxA (itemsA.length : Int) false valsA boolsA ∧
    Phase1ObjectiveSat itemsA.length valsA 0 ∧
    ((boxToItems itemsA valsA ((0 : Int) + 1).toNat).length = ((0 : Int) + 1).toNat ∧
     ∀ k, k < ((0 : Int) + 1).toNat →
       (boxToItems itemsA valsA ((0 : Int) + 1).toNat).getD k [] ≠ []) :=
  ⟨by decide, by decide,
   phase1_optimal_partition itemsA boxA false valsA boolsA 0 (by decide) (by decide)
     (by decide) (fun vals' bools' m' hms hobj' => hobj'.1)⟩

end ScalableRectpack
